import Mathlib

/-!
# Verification of the Torque-Lite-Pro ingestion core

Shallow embedding of `custom_components/torque_pro/api.py` and
`custom_components/torque_pro/const.py`: payload parsing, session cache
(TTL + LRU), multi-tenant routing and the GET request handler, together
with proofs of the specification claims about them.

Modelling conventions:
* Python `dict`s (insertion ordered, unique keys) are association lists
  `List (String × β)`; `dget`/`dset`/`dsetdefault`/`derase` mirror
  `d.get`, `d[k] = v`, `d.setdefault` and `d.pop`.
* Python floats are exact rationals (`Rat`).  `float(s)` on a decimal
  literal is modelled value-exactly; the strings that Python parses to
  non-finite floats (`nan`/`inf`/`infinity` with optional sign) are
  modelled by the `PyFloat` type, so `_parse_number`'s non-finite
  filtering is represented faithfully.  All arithmetic performed by the
  source on accepted values (division of positive numbers, division by
  60) is exact and stays finite, so the final "drop non-finite" scrub is
  the identity in the model.
* Timestamps (`datetime.now(timezone.utc)`) are integers counting
  seconds; `timedelta(seconds=ttl)` is integer subtraction.
-/

namespace TorquePro

/-- A value stored in a session's `values` dict: a (finite) parsed number,
a raw string passed through, or Python `None`. -/
inductive Val where
  | num (x : Rat)
  | str (s : String)
  | null
  deriving Repr, DecidableEq

/-- `d.get(k)` on a Python dict modelled as an association list:
first entry with the given key. -/
def dget {β : Type} : List (String × β) → String → Option β
  | [], _ => none
  | e :: rest, k => if e.1 = k then some e.2 else dget rest k

/-- `d[k] = v` on a Python dict: replace the value in place if the key is
present, otherwise append at the end (insertion order preserved). -/
def dset {β : Type} : List (String × β) → String → β → List (String × β)
  | [], k, v => [(k, v)]
  | e :: rest, k, v => if e.1 = k then (k, v) :: rest else e :: dset rest k v

/-- `d.setdefault(k, v)`: insert at the end only when the key is absent. -/
def dsetdefault {β : Type} (d : List (String × β)) (k : String) (v : β) :
    List (String × β) :=
  if (dget d k).isSome then d else d ++ [(k, v)]

/-- `d.pop(k, None)`: remove the entry with the given key, if any. -/
def derase {β : Type} : List (String × β) → String → List (String × β)
  | [], _ => []
  | e :: rest, k => if e.1 = k then rest else e :: derase rest k

/-- Python `a or b` on strings: the first operand when non-empty ("truthy"). -/
def strOr (a b : String) : String := if a = "" then b else a

/-- Python `a or b` where `a` is `str | None` and the result is a string
option (`None` and `""` are both falsy). -/
def strOrO (a : Option String) (b : Option String) : Option String :=
  match a with
  | some s => if s = "" then b else some s
  | none => b

/-- Python `(a or b or "")` for two optional strings. -/
def strOr2 (a b : Option String) : String := (strOrO a b).getD ""

/-! ### Kernel-computable string and rational primitives

`String.toLower`/`trim`/`replace` and the sealed `Rat` arithmetic do not
reduce during elaboration, so the model uses structural equivalents:
character-list implementations for the string methods (the sources only
ever replace single-character patterns) and `mkRat`/`divInt`-based
multiplication and division, proven equal to `*` and `/` below. -/

/-- Python `s.lower()` (ASCII case mapping, which covers every string the
source lowercases). -/
def pyLower (s : String) : String := String.mk (s.data.map Char.toLower)

/-- Python `s.strip()`. -/
def pyTrim (s : String) : String :=
  String.mk
    (((s.data.dropWhile Char.isWhitespace).reverse.dropWhile Char.isWhitespace).reverse)

/-- Python `s.replace(c, r)` for a single-character pattern. -/
def replaceChar (s : String) (c : Char) (r : List Char) : String :=
  String.mk (s.data.foldr (fun ch acc => (if ch = c then r else [ch]) ++ acc) [])

/-- Python `c in s` for a single character. -/
def containsChar (s : String) (c : Char) : Bool := s.data.contains c

/-- Exact multiplication on `Rat` by explicit normalization
(equal to `*`, see `rmul_eq`). -/
def rmul (a b : Rat) : Rat := mkRat (a.num * b.num) (a.den * b.den)

/-- Exact division on `Rat` by explicit normalization
(equal to `/`, see `rdiv_eq`). -/
def rdiv (a b : Rat) : Rat := Rat.divInt (a.num * b.den) (a.den * b.num)

theorem rmul_eq (a b : Rat) : rmul a b = a * b := by
  unfold rmul
  rw [Rat.mkRat_eq_divInt, Rat.divInt_eq_div]
  push_cast
  rw [← div_mul_div_comm, Rat.num_div_den, Rat.num_div_den]

theorem rdiv_eq (a b : Rat) : rdiv a b = a / b := by
  unfold rdiv
  rcases eq_or_ne b.num 0 with h | h
  · rw [Rat.zero_iff_num_zero.symm] at h
    subst h
    simp
  · rw [Rat.divInt_eq_div]
    conv_rhs => rw [← Rat.num_div_den a, ← Rat.num_div_den b]
    have ha : (a.den : ℚ) ≠ 0 := by
      exact_mod_cast a.den_nz
    have hb : (b.num : ℚ) ≠ 0 := Int.cast_ne_zero.mpr h
    field_simp

/-! ## `float(s)`: Python's decimal-literal parser

`PyFloat` distinguishes finite values (kept exact as rationals) from the
non-finite results that Python's `float()` produces for the words
`inf`/`infinity`/`nan` (with optional sign). -/

inductive PyFloat where
  | finite (x : Rat)
  | inf
  | negInf
  | nan
  deriving Repr, DecidableEq

/-- Numeric value of a list of decimal digit characters, `none` if empty
or containing a non-digit. -/
def digitsVal : List Char → Option Nat
  | [] => none
  | l =>
    if l.all (·.isDigit) then
      some (l.foldl (fun acc c => acc * 10 + (c.toNat - '0'.toNat)) 0)
    else none

/-- Parse the unsigned mantissa `digits[.digits]` of a decimal literal:
returns the numerator together with the number of fractional digits.
At least one digit must be present overall. -/
def parseMantissa (l : List Char) : Option (Nat × Nat) :=
  let intPart := l.takeWhile (·.isDigit)
  let rest := l.drop intPart.length
  match rest with
  | [] =>
    match digitsVal intPart with
    | some n => some (n, 0)
    | none => none
  | '.' :: frac =>
    if frac.all (·.isDigit) ∧ (intPart ≠ [] ∨ frac ≠ []) then
      some ((intPart ++ frac).foldl
        (fun acc c => acc * 10 + (c.toNat - '0'.toNat)) 0, frac.length)
    else none
  | _ => none

/-- Parse an optional exponent part `e[+-]digits` (empty input means
exponent `0`). -/
def parseExponent (l : List Char) : Option Int :=
  match l with
  | [] => some 0
  | c :: rest =>
    if c = 'e' ∨ c = 'E' then
      match rest with
      | '+' :: ds => (digitsVal ds).map (Int.ofNat)
      | '-' :: ds => (digitsVal ds).map (fun n => -(n : Int))
      | ds => (digitsVal ds).map (Int.ofNat)
    else none

/-- Scale a rational by a (possibly negative) power of ten. -/
def scalePow10 (x : Rat) (e : Int) : Rat :=
  match e with
  | .ofNat n => rmul x (mkRat ((10 : Int) ^ n) 1)
  | .negSucc n => rdiv x (mkRat ((10 : Int) ^ (n + 1)) 1)

/-- The unsigned body of a float literal: a special word or a decimal
mantissa with optional exponent. -/
def pyFloatBody (l : List Char) : Option PyFloat :=
  let w := pyLower (String.mk l)
  if w = "inf" ∨ w = "infinity" then some .inf
  else if w = "nan" then some .nan
  else
    let mantLen := (l.takeWhile (fun c => c.isDigit ∨ c = '.')).length
    match parseMantissa (l.take mantLen), parseExponent (l.drop mantLen) with
    | some (n, fracLen), some e =>
      some (.finite (scalePow10 (rdiv (mkRat n 1) (mkRat ((10 : Int) ^ fracLen) 1)) e))
    | _, _ => none

/-- Model of Python `float(s)` on a stripped string: optional sign, then a
special word or a decimal literal.  Finite values are exact (the model
ignores binary rounding and overflow, which no claim depends on). -/
def pyFloat? (s : String) : Option PyFloat :=
  match s.data with
  | [] => none
  | '+' :: rest => pyFloatBody rest
  | '-' :: rest =>
    match pyFloatBody rest with
    | some (.finite x) => some (.finite (-x))
    | some .inf => some .negInf
    | some .negInf => none
    | some .nan => some .nan
    | none => none
  | l => pyFloatBody l

/-- `_parse_number` (api.py): tolerant float parsing; comma decimals
accepted, empty and non-finite inputs dropped to `None`. -/
def parseNumber (raw : String) : Option Rat :=
  let s := pyTrim raw
  if s = "" then none
  else
    let s := replaceChar s ',' ['.']
    let sl := pyLower s
    if sl = "inf" ∨ sl = "+inf" ∨ sl = "-inf" ∨ sl = "infinity" ∨ sl = "nan" then
      none
    else
      match pyFloat? s with
      | some (.finite v) => some v
      | some _ => none
      | none => none

/-- `_parse_number(q.get(k))`: the raw value may be missing (`None`). -/
def parseNumberO (raw : Option String) : Option Rat :=
  match raw with
  | none => none
  | some s => parseNumber s

/-! ## Constants (`const.py`) -/

def DEFAULT_LANGUAGE : String := "fr"

def RUNTIME_LANG_MAP : List (String × String) := [("fr", "fr"), ("en", "en")]

def SESSION_TTL_SECONDS : Int := 30 * 60

def MAX_SESSIONS : Nat := 100

def TORQUE_GPS_LAT : String := "gpslat"
def TORQUE_GPS_LON : String := "gpslon"
def TORQUE_GPS_ALTITUDE : String := "gps_height"
def TORQUE_GPS_ACCURACY : String := "gps_acc"

/-- One entry of the `TORQUE_CODES` table. -/
structure CodeEntry where
  shortName : String
  fullName : String
  unit : Option String
  deriving Repr, DecidableEq

/-- Chunk 1 of the static `TORQUE_CODES` table of `const.py`
(split only to keep list-literal elaboration cheap; source order kept). -/
def torqueCodesBase1 : List (String × CodeEntry) := [
  ("04", ⟨"engine_load", "Engine Load", some "%"⟩),
  ("05", ⟨"coolant_temp", "Engine Coolant Temperature", some "°C"⟩),
  ("06", ⟨"fuel_trim_b1_short", "Fuel Trim Bank 1 Short Term", some "%"⟩),
  ("07", ⟨"fuel_trim_b1_long", "Fuel Trim Bank 1 Long Term", some "%"⟩),
  ("08", ⟨"fuel_trim_b2_short", "Fuel Trim Bank 2 Short Term", some "%"⟩),
  ("09", ⟨"fuel_trim_b2_long", "Fuel Trim Bank 2 Long Term", some "%"⟩),
  ("0a", ⟨"fuel_pressure", "Fuel pressure", some "kPa"⟩),
  ("0b", ⟨"intake_manifold_pressure", "Intake Manifold Pressure", some "kPa"⟩),
  ("0c", ⟨"engine_rpm", "Engine RPM", some "rpm"⟩),
  ("0d", ⟨"speed_obd", "Speed (OBD)", some "km/h"⟩),
  ("0e", ⟨"timing_advance", "Timing Advance", some "°"⟩),
  ("0f", ⟨"intake_air_temp", "Intake Air Temperature", some "°C"⟩),
  ("10", ⟨"mass_air_flow_rate", "Mass Air Flow Rate", some "g/s"⟩),
  ("11", ⟨"throttle_position_manifold", "Throttle Position (Manifold)", some "%"⟩),
  ("1f", ⟨"run_time_since_start", "Run time since engine start", some "s"⟩),
  ("21", ⟨"dist_mil_on", "Distance travelled with MIL/CEL lit", some "km"⟩),
  ("ff1001", ⟨"gps_spd", "Vehicle Speed (GPS)", some "km/h"⟩),
  ("ff1005", ⟨"gpslon", "GPS Longitude", some "°"⟩),
  ("ff1006", ⟨"gpslat", "GPS Latitude", some "°"⟩),
  ("ff1010", ⟨"gps_height", "GPS Altitude", some "m"⟩),
  ("ff1201", ⟨"mpg_instant", "Miles Per Gallon(Instant)", some "mpg"⟩),
  ("ff1202", ⟨"turbo_boost_vacuum_gauge", "Turbo Boost & Vacuum Gauge", some "psi"⟩),
  ("ff1203", ⟨"kpl_instant", "Kilometers Per Litre(Instant)", some "kpl"⟩),
  ("ff1204", ⟨"trip_distance", "Trip Distance", some "km"⟩),
  ("ff1205", ⟨"mpg_trip_avg", "Trip average MPG", some "mpg"⟩)]

/-- Chunk 2 of the static `TORQUE_CODES` table of `const.py`
(split only to keep list-literal elaboration cheap; source order kept). -/
def torqueCodesBase2 : List (String × CodeEntry) := [
  ("ff1206", ⟨"kpl_trip_avg", "Trip average KPL", some "kpl"⟩),
  ("ff1207", ⟨"l_per_100_instant", "Litres Per 100 Kilometer(Instant)", some "L/100km"⟩),
  ("ff1208", ⟨"l_per_100_trip_avg", "Trip average Litres/100 KM", some "L/100km"⟩),
  ("ff120c", ⟨"trip_distance_stored", "Trip distance (stored in vehicle profile)", some "km"⟩),
  ("ff1214", ⟨"o2_b1s1_voltage", "O2 \x7bO2L:1\x7d Voltage", some "V"⟩),
  ("ff1215", ⟨"o2_b1s2_voltage", "O2 \x7bO2L:2\x7d Voltage", some "V"⟩),
  ("ff1216", ⟨"o2_b1s3_voltage", "O2 \x7bO2L:3\x7d Voltage", some "V"⟩),
  ("ff1217", ⟨"o2_b1s4_voltage", "O2 \x7bO2L:4\x7d Voltage", some "V"⟩),
  ("ff1218", ⟨"o2_b2s1_voltage", "O2 \x7bO2L:5\x7d Voltage", some "V"⟩),
  ("ff1219", ⟨"o2_b2s2_voltage", "O2 \x7bO2L:6\x7d Voltage", some "V"⟩),
  ("ff121a", ⟨"o2_b2s3_voltage", "O2 \x7bO2L:7\x7d Voltage", some "V"⟩),
  ("ff121b", ⟨"o2_b2s4_voltage", "O2 \x7bO2L:8\x7d Voltage", some "V"⟩),
  ("ff1220", ⟨"accel_x", "Acceleration Sensor(X axis)", some "g"⟩),
  ("ff1221", ⟨"accel_y", "Acceleration Sensor(Y axis)", some "g"⟩),
  ("ff1222", ⟨"accel_z", "Acceleration Sensor(Z axis)", some "g"⟩),
  ("ff1223", ⟨"accel_total", "Acceleration Sensor(Total)", some "g"⟩),
  ("ff1225", ⟨"torque", "Torque", some "ft-lb"⟩),
  ("ff1226", ⟨"horsepower_wheels", "Horsepower (At the wheels)", some "hp"⟩),
  ("ff122d", ⟨"time_0_60mph", "0-60mph Time", some "s"⟩),
  ("ff122e", ⟨"time_0_100kph", "0-100kph Time", some "s"⟩),
  ("ff122f", ⟨"time_quarter_mile", "1/4 mile time", some "s"⟩),
  ("ff1230", ⟨"time_eighth_mile", "1/8 mile time", some "s"⟩),
  ("ff1237", ⟨"spd_diff_gps_obd", "GPS vs OBD Speed difference", some "km/h"⟩),
  ("ff1238", ⟨"voltage_obd_adapter", "Voltage (OBD Adapter)", some "V"⟩),
  ("ff123a", ⟨"gps_satellites", "GPS Satellites", none⟩)]

/-- Chunk 3 of the static `TORQUE_CODES` table of `const.py`
(split only to keep list-literal elaboration cheap; source order kept). -/
def torqueCodesBase3 : List (String × CodeEntry) := [
  ("ff123b", ⟨"gps_bearing", "GPS Bearing", some "°"⟩),
  ("ff1240", ⟨"o2_o2l1_wide_eq_ratio", "O2 \x7bO2L:1\x7d Wide Range Equivalence Ratio", some "λ"⟩),
  ("ff1241", ⟨"o2_o2l2_wide_eq_ratio", "O2 \x7bO2L:2\x7d Wide Range Equivalence Ratio", some "λ"⟩),
  ("ff1242", ⟨"o2_o2l3_wide_eq_ratio", "O2 \x7bO2L:3\x7d Wide Range Equivalence Ratio", some "λ"⟩),
  ("ff1243", ⟨"o2_o2l4_wide_eq_ratio", "O2 \x7bO2L:4\x7d Wide Range Equivalence Ratio", some "λ"⟩),
  ("ff1244", ⟨"o2_o2l5_wide_eq_ratio", "O2 \x7bO2L:5\x7d Wide Range Equivalence Ratio", some "λ"⟩),
  ("ff1245", ⟨"o2_o2l6_wide_eq_ratio", "O2 \x7bO2L:6\x7d Wide Range Equivalence Ratio", some "λ"⟩),
  ("ff1246", ⟨"o2_o2l7_wide_eq_ratio", "O2 \x7bO2L:7\x7d Wide Range Equivalence Ratio", some "λ"⟩),
  ("ff1247", ⟨"o2_o2l8_wide_eq_ratio", "O2 \x7bO2L:8\x7d Wide Range Equivalence Ratio", some "λ"⟩),
  ("ff1249", ⟨"air_fuel_ratio_measured", "Air Fuel Ratio(Measured)", some ":1"⟩),
  ("ff124d", ⟨"air_fuel_ratio_commanded", "Air Fuel Ratio(Commanded)", some ":1"⟩),
  ("ff124f", ⟨"time_0_200kph", "0-200kph Time", some "s"⟩),
  ("ff1257", ⟨"co2_gkm_instant", "CO₂ in g/km (Instantaneous)", some "g/km"⟩),
  ("ff1258", ⟨"co2_gkm_avg", "CO₂ in g/km (Average)", some "g/km"⟩),
  ("ff125a", ⟨"fuel_flow_rate_min", "Fuel flow rate/minute", some "cc/min"⟩),
  ("ff125c", ⟨"fuel_cost_trip", "Fuel cost (trip)", some "cost"⟩),
  ("ff125d", ⟨"fuel_flow_rate_hr", "Fuel flow rate/hour", some "L/hr"⟩),
  ("ff125e", ⟨"time_60_120mph", "60-120mph Time", some "s"⟩),
  ("ff125f", ⟨"time_60_80mph", "60-80mph Time", some "s"⟩),
  ("ff1260", ⟨"time_40_60mph", "40-60mph Time", some "s"⟩),
  ("ff1261", ⟨"time_80_100mph", "80-100mph Time", some "s"⟩),
  ("ff1263", ⟨"avg_trip_speed_moving", "Average trip speed(whilst moving only)", some "km/h"⟩),
  ("ff1264", ⟨"time_100_0kph", "100-0kph Time", some "s"⟩),
  ("ff1265", ⟨"time_60_0mph", "60-0mph Time", some "s"⟩),
  ("ff1266", ⟨"trip_time_since_start", "Trip Time(Since journey start)", some "s"⟩)]

/-- Chunk 4 of the static `TORQUE_CODES` table of `const.py`
(split only to keep list-literal elaboration cheap; source order kept). -/
def torqueCodesBase4 : List (String × CodeEntry) := [
  ("ff1267", ⟨"trip_time_stationary", "Trip time(whilst stationary)", some "s"⟩),
  ("ff1268", ⟨"trip_time_moving", "Trip time(whilst moving)", some "s"⟩),
  ("ff1269", ⟨"volumetric_efficiency_calc", "Volumetric Efficiency (Calculated)", some "%"⟩),
  ("ff126a", ⟨"distance_to_empty_est", "Distance to empty (Estimated)", some "km"⟩),
  ("ff126b", ⟨"fuel_remaining_calc", "Fuel Remaining (Calculated from vehicle profile)", some "%"⟩),
  ("ff126d", ⟨"cost_per_km_instant", "Cost per mile/km (Instant)", some "€/km"⟩),
  ("ff126e", ⟨"cost_per_km_trip", "Cost per mile/km (Trip)", some "€/km"⟩),
  ("ff1270", ⟨"barometer_android", "Barometer (on Android device)", some "mb"⟩),
  ("ff1271", ⟨"fuel_used_trip", "Fuel used (trip)", some "L"⟩),
  ("ff1272", ⟨"avg_trip_speed_overall", "Average trip speed(whilst stopped or moving)", some "km/h"⟩),
  ("ff1273", ⟨"engine_kw_wheels", "Engine kW (At the wheels)", some "kW"⟩),
  ("ff1275", ⟨"time_80_120kph", "80-120kph Time", some "s"⟩),
  ("ff1276", ⟨"time_60_130mph", "60-130mph Time", some "s"⟩),
  ("ff1277", ⟨"time_0_30mph", "0-30mph Time", some "s"⟩),
  ("ff1278", ⟨"time_0_100mph", "0-100mph Time", some "s"⟩),
  ("ff1280", ⟨"time_100_200kph", "100-200kph Time", some "s"⟩),
  ("ff1282", ⟨"egt_b1_s2", "Exhaust gas temp Bank 1 Sensor 2", some "°C"⟩),
  ("ff1283", ⟨"egt_b1_s3", "Exhaust gas temp Bank 1 Sensor 3", some "°C"⟩),
  ("ff1284", ⟨"egt_b1_s4", "Exhaust gas temp Bank 1 Sensor 4", some "°C"⟩),
  ("ff1286", ⟨"egt_b2_s2", "Exhaust gas temp Bank 2 Sensor 2", some "°C"⟩),
  ("ff1287", ⟨"egt_b2_s3", "Exhaust gas temp Bank 2 Sensor 3", some "°C"⟩),
  ("ff1288", ⟨"egt_b2_s4", "Exhaust gas temp Bank 2 Sensor 4", some "°C"⟩),
  ("ff128a", ⟨"nox_post_scr", "NOx Post SCR", some "ppm"⟩),
  ("ff1296", ⟨"pct_city_driving", "Percentage of City driving", some "%"⟩),
  ("ff1297", ⟨"pct_highway_driving", "Percentage of Highway driving", some "%"⟩)]

/-- Chunk 5 of the static `TORQUE_CODES` table of `const.py`
(split only to keep list-literal elaboration cheap; source order kept). -/
def torqueCodesBase5 : List (String × CodeEntry) := [
  ("ff1298", ⟨"pct_idle_driving", "Percentage of Idle driving", some "%"⟩),
  ("ff129a", ⟨"android_battery_level", "Android device Battery Level", some "%"⟩),
  ("ff129b", ⟨"dpf_b1_outlet_temp", "DPF Bank 1 Outlet Temperature", some "°C"⟩),
  ("ff129c", ⟨"dpf_b2_inlet_temp", "DPF Bank 2 Inlet Temperature", some "°C"⟩),
  ("ff129d", ⟨"dpf_b2_outlet_temp", "DPF Bank 2 Outlet Temperature", some "°C"⟩),
  ("ff129e", ⟨"maf_sensor_b", "Mass air flow sensor B", some "g/s"⟩),
  ("ff12a1", ⟨"intake_manifold_abs_pressure_b", "Intake Manifold Abs Pressure B", some "kPa"⟩),
  ("ff12a4", ⟨"boost_pressure_commanded_b", "Boost Pressure Commanded B", some "kPa"⟩),
  ("ff12a5", ⟨"boost_pressure_sensor_a", "Boost Pressure Sensor A", some "kPa"⟩),
  ("ff12a6", ⟨"boost_pressure_sensor_b", "Boost Pressure Sensor B", some "kPa"⟩),
  ("ff12ab", ⟨"exhaust_pressure_b2", "Exhaust Pressure Bank 2", some "kPa"⟩),
  ("ff12b0", ⟨"dpf_b1_inlet_pressure", "DPF Bank 1 Inlet Pressure", some "kPa"⟩),
  ("ff12b1", ⟨"dpf_b1_outlet_pressure", "DPF Bank 1 Outlet Pressure", some "kPa"⟩),
  ("ff12b2", ⟨"dpf_b2_inlet_pressure", "DPF Bank 2 Inlet Pressure", some "kPa"⟩),
  ("ff12b3", ⟨"dpf_b2_outlet_pressure", "DPF Bank 2 Outlet Pressure", some "kPa"⟩),
  ("ff12b4", ⟨"hybrid_ev_batt_current", "Hybrid/EV System Battery Current", some "A"⟩),
  ("ff12b5", ⟨"hybrid_ev_batt_power", "Hybrid/EV System Battery Power", some "W"⟩),
  ("ff12b6", ⟨"positive_kinetic_energy_pke", "Positive Kinetic Energy (PKE)", some "km/hr^2"⟩),
  ("ff5201", ⟨"mpg_long_term_avg", "Miles Per Gallon(Long Term Average)", some "mpg"⟩),
  ("ff5202", ⟨"kpl_long_term_avg", "Kilometers Per Litre(Long Term Average)", some "kpl"⟩),
  ("ff5203", ⟨"l_per_100_long_term_avg", "Litres Per 100 Kilometer(Long Term Average)", some "L/100km"⟩)]

/-- The static `TORQUE_CODES` table of `const.py` (in source order). -/
def torqueCodesBase : List (String × CodeEntry) :=
  torqueCodesBase1 ++ torqueCodesBase2 ++ torqueCodesBase3 ++ torqueCodesBase4 ++ torqueCodesBase5

/-- The `_CRITICAL_TORQUE_CODES` ensure block of `const.py`. -/
def criticalTorqueCodes : List (String × CodeEntry) := [
  ("0d", ⟨"speed_obd", "Speed (OBD)", some "km/h"⟩),
  ("ff1001", ⟨"gps_spd", "Vehicle Speed (GPS)", some "km/h"⟩),
  ("ff1005", ⟨"gpslon", "GPS Longitude", some "°"⟩),
  ("ff1006", ⟨"gpslat", "GPS Latitude", some "°"⟩),
  ("ff1010", ⟨"gps_height", "GPS Altitude", some "m"⟩),
  ("ff1239", ⟨"gps_acc", "GPS Accuracy", some "m"⟩)]

/-- `TORQUE_CODES` after the `setdefault` loop over the critical codes
(only `ff1239` is actually missing from the base table). -/
def TORQUE_CODES : List (String × CodeEntry) :=
  criticalTorqueCodes.foldl (fun t e =>
    if (dget t e.1).isSome then t else t ++ [e]) torqueCodesBase

/-! ## Labels and helpers (api.py) -/

/-- `FR_BY_KEY`: the repository contains no `labels_fr.py` module, so the
guarded import in api.py falls back to an empty dict. -/
def FR_BY_KEY : List (String × String) := []

/-- `_ensure_labels_fr`: english fullName (lowercased) → french label. -/
def labelsFr : List (String × String) :=
  TORQUE_CODES.foldl (fun labels e =>
    let fullEn := pyLower (pyTrim e.2.fullName)
    let short := e.2.shortName
    match dget FR_BY_KEY short with
    | some fr => if fullEn ≠ "" then dset labels fullEn fr else labels
    | none => labels) []

/-- `get_label`: localized label when the language is french and a
translation exists, otherwise the english full name. -/
def getLabel (lang : String) (fullEn : String) : String :=
  if pyLower (strOr lang DEFAULT_LANGUAGE) = "fr" then
    (dget labelsFr (pyLower (pyTrim fullEn))).getD fullEn
  else fullEn

/-- With the empty `FR_BY_KEY`, `get_label` is the identity on the name. -/
theorem getLabel_eq (lang fullEn : String) : getLabel lang fullEn = fullEn := by
  unfold getLabel labelsFr
  have h : TORQUE_CODES.foldl (fun labels e =>
      let fullEn := pyLower (pyTrim e.2.fullName)
      match dget FR_BY_KEY e.2.shortName with
      | some fr => if fullEn ≠ "" then dset labels fullEn fr else labels
      | none => labels) [] = ([] : List (String × String)) := by
    generalize TORQUE_CODES = l
    induction l with
    | nil => rfl
    | cons e rest ih => simp only [FR_BY_KEY, dget, List.foldl]; exact ih
  rw [h]
  split <;> simp [dget]

/-- `_pick_lang`: normalize a language override to a supported language,
falling back to the global default. -/
def pickLang (queryLang : String) : String :=
  let lang := pyLower (pyTrim (strOr queryLang DEFAULT_LANGUAGE))
  (dget RUNTIME_LANG_MAP lang).getD DEFAULT_LANGUAGE

/-- `_valid_lat_lon`: bound-check coordinates, invalid parts become `None`. -/
def validLatLon (lat lon : Option Rat) :
    Option Rat × Option Rat :=
  let lat := match lat with
    | some x => if -90 ≤ x ∧ x ≤ 90 then some x else none
    | none => none
  let lon := match lon with
    | some x => if -180 ≤ x ∧ x ≤ 180 then some x else none
    | none => none
  (lat, lon)

/-- `_norm_key`: lowercase, strip dots/dashes/underscores, trim. -/
def normKey (k : String) : String :=
  pyTrim (replaceChar (replaceChar (replaceChar (pyLower k) '.' []) '-' []) '_' [])

/-- The candidate keys tried by `_extract_profile_name`. -/
def profileNameCandidates : List String :=
  ["profileName", "profile_name", "profile",
   "vehicleName", "vehicle", "carName", "car",
   "name", "profilename", "profile.name"]

/-- `_extract_profile_name`: first field whose normalized key matches a
candidate and whose stripped value is non-empty. -/
def extractProfileName : List (String × String) → String
  | [] => ""
  | (k, v) :: rest =>
    if (profileNameCandidates.map normKey).contains (normKey k) then
      if pyTrim v ≠ "" then pyTrim v else extractProfileName rest
    else extractProfileName rest

/-- The `_POOR_NAME_RE` regex `^\s*vehicle\s*\d+\s*$` applied to an
(already stripped, lowercased) string. -/
def poorNameMatch (s : String) : Bool :=
  let l := s.data.dropWhile (·.isWhitespace)
  if l.take 7 = "vehicle".data then
    let r := (l.drop 7).dropWhile (·.isWhitespace)
    let ds := r.takeWhile (·.isDigit)
    let rest := (r.drop ds.length).dropWhile (·.isWhitespace)
    decide (ds ≠ [] ∧ rest = [])
  else false

/-- `_is_poor_name`: empty, the bare words vehicle/véhicule, or the
synthetic `Vehicle 123456` pattern. -/
def isPoorName (name : String) : Bool :=
  if name = "" then true
  else
    let s := pyTrim name
    if s = "" then true
    else
      let low := pyLower s
      if low = "vehicle" ∨ low = "véhicule" then true
      else poorNameMatch low

/-- `TorqueReceiveDataView._extract_app_version`: prefer explicit app
version keys; accept `ver`/`v` only when semver-like. -/
def extractAppVersion (q : List (String × String)) : String :=
  let explicit := ["appVersion", "app_version", "apkVersion", "versionName",
    "version"].findSome? (fun k =>
      let v := pyTrim ((dget q k).getD "")
      if v ≠ "" then some v else none)
  match explicit with
  | some v => v
  | none =>
    let proto := ["ver", "v"].findSome? (fun k =>
      let v := pyTrim ((dget q k).getD "")
      if v ≠ "" ∧ (containsChar v '.' ∨ containsChar v '-') then some v else none)
    match proto with
    | some v => v
    | none => ""

/-- Models the external `homeassistant.util.slugify` (outside this
repository): lowercase, collapse non-alphanumeric runs to underscores.
No claim depends on its exact output. -/
def slugifyWords : List Char → List Char → List (List Char)
  | [], acc => if acc = [] then [] else [acc.reverse]
  | '_' :: rest, acc =>
    if acc = [] then slugifyWords rest [] else acc.reverse :: slugifyWords rest []
  | c :: rest, acc => slugifyWords rest (c :: acc)

def slugifyJoin : List (List Char) → List Char
  | [] => []
  | [w] => w
  | w :: rest => w ++ '_' :: slugifyJoin rest

def slugify (s : String) : String :=
  let mapped := (pyLower s).data.map (fun c => if c.isAlphanum then c else '_')
  String.mk (slugifyJoin (slugifyWords mapped []))

/-! ## Session data model -/

/-- One entry of a session's `meta` dict. -/
structure MetaEntry where
  name : String
  unit : String
  fullEn : String
  code : String
  deriving Repr, DecidableEq

abbrev Values := List (String × Val)
abbrev Meta := List (String × MetaEntry)
abbrev NameMap := List (String × String)

/-- The `profile` sub-dict of a normalized session («Name», «Id»,
«Email», optional «version»). -/
structure Profile where
  name : String
  id : String
  email : String
  version : Option String
  deriving Repr, DecidableEq

/-- A normalized session dict as built by `_parse_fields`. -/
structure Session where
  id : String
  lastSeen : Int
  profile : Profile
  values : Values
  meta : Meta
  unknown : List (String × String)
  lang : String
  unitPreference : String
  deriving Repr, DecidableEq

/-! ## Time normalization (`_normalize_runtime_units`) -/

/-- `_SECONDS_TO_MIN`: the three trip-duration short names. -/
def SECONDS_TO_MIN : List String :=
  ["trip_time_since_start", "trip_time_stationary", "trip_time_moving"]

/-- One iteration of the `_normalize_runtime_units` loop for a single
meta key: convert a seconds value to minutes and retag the unit. -/
def normStep (vm : Values × Meta) (short : String) : Values × Meta :=
  match dget vm.2 short with
  | none => vm
  | some m =>
    if SECONDS_TO_MIN.contains short ∧ pyTrim m.unit = "s" then
      match dget vm.1 short with
      | some (.num x) =>
        (dset vm.1 short (.num (rdiv x (mkRat 60 1))),
         dset vm.2 short { m with unit := "min" })
      | _ => vm
    else vm

/-- `_normalize_runtime_units`: apply `normStep` to every key of the meta
dict (iterating, as the source does, over a snapshot of `meta.keys()`). -/
def normalizeRuntimeUnits (vm : Values × Meta) : Values × Meta :=
  (vm.2.map Prod.fst).foldl normStep vm

/-! ## Fuel-economy synthesis (`_synth_economy`) -/

/-- `_is_num` applied to `values.get(short)`: a finite number is present. -/
def isNum : Option Val → Bool
  | some (.num _) => true
  | _ => false

/-- The numeric value behind `isNum` (meaningful only when `isNum`). -/
def numVal : Option Val → Rat
  | some (.num x) => x
  | _ => 0

/-- The constant `MPG_TO_L_PER_100 = 235.215`. -/
def MPG_TO_L_PER_100 : Rat := mkRat 235215 1000

/-- The local `_add` helper of `_synth_economy`: fill a gap, never
replacing an existing finite numeric value; meta only via `setdefault`. -/
def econAdd (lang : String) (vm : Values × Meta) (short : String)
    (val : Rat) (unit fullEn : String) : Values × Meta :=
  if isNum (dget vm.1 short) then vm
  else
    (dset vm.1 short (.num val),
     dsetdefault vm.2 short ⟨getLabel lang fullEn, unit, fullEn, ""⟩)

/-- One context block of `_synth_economy` (long-term / trip / instant):
derive the missing economy figure from the present one. -/
def synthBlock (lang : String) (vm : Values × Meta)
    (kplKey l100Key mpgKey l100Full kplFull : String) : Values × Meta :=
  let kpl := dget vm.1 kplKey
  let l100 := dget vm.1 l100Key
  let mpg := dget vm.1 mpgKey
  if isNum kpl ∧ ¬ isNum l100 ∧ numVal kpl > 0 then
    econAdd lang vm l100Key (rdiv (mkRat 100 1) (numVal kpl)) "L/100km" l100Full
  else if isNum l100 ∧ ¬ isNum kpl ∧ numVal l100 > 0 then
    econAdd lang vm kplKey (rdiv (mkRat 100 1) (numVal l100)) "kpl" kplFull
  else if isNum mpg ∧ ¬ isNum l100 ∧ numVal mpg > 0 then
    econAdd lang vm l100Key (rdiv MPG_TO_L_PER_100 (numVal mpg)) "L/100km" l100Full
  else vm

/-- `_synth_economy`: the three context blocks, in source order. -/
def synthEconomy (lang : String) (vm : Values × Meta) : Values × Meta :=
  let vm := synthBlock lang vm "kpl_long_term_avg" "l_per_100_long_term_avg"
    "mpg_long_term_avg" "Litres Per 100 Kilometer(Long Term Average)"
    "Kilometers Per Litre(Long Term Average)"
  let vm := synthBlock lang vm "kpl_trip_avg" "l_per_100_trip_avg"
    "mpg_trip_avg" "Trip average Litres/100 KM" "Trip average KPL"
  synthBlock lang vm "kpl_instant" "l_per_100_instant" "mpg_instant"
    "Litres Per 100 Kilometer(Instant)" "Kilometers Per Litre(Instant)"

/-! ## `_parse_fields` -/

/-- `_UNKNOWN_CAP`. -/
def UNKNOWN_CAP : Nat := 80

/-- One iteration of the sensor-code loop of `_parse_fields`: keys
starting with `k` are looked up in the code table; hits populate
`values`/`meta`, misses accumulate (capped) into `unknown`. -/
def sensorStep (lang : String)
    (acc : Values × Meta × List (String × String)) (kv : String × String) :
    Values × Meta × List (String × String) :=
  let (key, raw) := kv
  if key = "" ∨ pyLower (key.take 1) ≠ "k" then acc
  else
    let code := pyLower (key.drop 1)
    match dget TORQUE_CODES code with
    | none =>
      if acc.2.2.length < UNKNOWN_CAP then (acc.1, acc.2.1, dset acc.2.2 code raw)
      else acc
    | some mc =>
      let short := mc.shortName
      let unit := mc.unit.getD ""
      let fullEn := strOr mc.fullName short
      let nameFr := getLabel lang fullEn
      let v := match parseNumber raw with
        | some x => Val.num x
        | none => Val.str raw
      (dset acc.1 short v, dset acc.2.1 short ⟨nameFr, unit, fullEn, code⟩, acc.2.2)

/-- The direct positional-field section of `_parse_fields`: validated
`lat`/`lon` and parsed `alt`/`acc` assign their well-known short name in
`values` and add meta only via `setdefault` (source order: lat, lon,
alt, acc; parsing is pure so the values are taken pre-parsed). -/
def addDirectGps (lang : String) (vm : Values × Meta)
    (latD lonD altD accD : Option Rat) : Values × Meta :=
  let vm := match latD with
    | some x => (dset vm.1 TORQUE_GPS_LAT (.num x),
        dsetdefault vm.2 TORQUE_GPS_LAT
          ⟨getLabel lang "GPS Latitude", "°", "GPS Latitude", "ff1006"⟩)
    | none => vm
  let vm := match lonD with
    | some x => (dset vm.1 TORQUE_GPS_LON (.num x),
        dsetdefault vm.2 TORQUE_GPS_LON
          ⟨getLabel lang "GPS Longitude", "°", "GPS Longitude", "ff1005"⟩)
    | none => vm
  let vm := match altD with
    | some x => (dset vm.1 TORQUE_GPS_ALTITUDE (.num x),
        dsetdefault vm.2 TORQUE_GPS_ALTITUDE
          ⟨getLabel lang "GPS Altitude", "m", "GPS Altitude", "ff1010"⟩)
    | none => vm
  match accD with
  | some x => (dset vm.1 TORQUE_GPS_ACCURACY (.num x),
      dsetdefault vm.2 TORQUE_GPS_ACCURACY
        ⟨getLabel lang "GPS Accuracy", "m", "GPS Accuracy", "ff1239"⟩)
  | none => vm

/-- The remembered-name expression of `_parse_fields`:
`(vehicle_id and byId.get(vehicle_id)) or (eml and byEmail.get(eml)) or ""`. -/
def rememberedName (vehicleId eml : String) (byId byEmail : NameMap) : String :=
  let a := if vehicleId ≠ "" then (dget byId vehicleId).getD "" else ""
  if a ≠ "" then a
  else if eml ≠ "" then (dget byEmail eml).getD "" else ""

/-- Profile-name resolution of `_parse_fields` (lines 509–517): explicit
name, else a remembered good name, else the synthetic
`Vehicle <session_id[:6]>` fallback. -/
def resolveProfileName (pn0 sessionId vehicleId eml : String)
    (byId byEmail : NameMap) : String :=
  let pn :=
    if pn0 = "" ∨ isPoorName pn0 then
      let remembered := rememberedName vehicleId eml byId byEmail
      if remembered ≠ "" ∧ ¬ isPoorName remembered then remembered else pn0
    else pn0
  if pn = "" then "Vehicle " ++ sessionId.take 6 else pn

/-- The final "drop any remaining non-finite numerics" loop: numeric
values in the model are exact (finite) rationals, so the `isfinite`
guard never fires and the loop keeps every entry unchanged. -/
def scrubNonFinite (values : Values) : Values :=
  values.map (fun kv => match kv.2 with
    | .num x => (kv.1, Val.num x)
    | v => (kv.1, v))

/-- Result of `_parse_fields`: the optional session plus the updated
last-good-name memories (`self._last_name_by_id/_email`). -/
structure ParseResult where
  session : Option Session
  lastNameById : NameMap
  lastNameByEmail : NameMap
  deriving Repr, DecidableEq

/-- `_parse_fields`: parse a Torque query dict into a normalized session. -/
def parseFields (q : List (String × String)) (lang : String)
    (imperialOverride : Option Bool) (selfImperial : Bool) (now : Int)
    (lastNameById lastNameByEmail : NameMap) : ParseResult :=
  let eml := pyTrim (strOr2 (dget q "eml") (dget q "email"))
  let sessionId := pyTrim ((dget q "session").getD "")
  if sessionId = "" then ⟨none, lastNameById, lastNameByEmail⟩
  else
    let vehicleId := pyTrim ((dget q "id").getD "")
    let profileName0 := extractProfileName q
    let appVersion := extractAppVersion q
    let latLon := validLatLon (parseNumberO (dget q "lat")) (parseNumberO (dget q "lon"))
    let altD := parseNumberO (strOrO (dget q "alt") (dget q "altitude"))
    let accD := parseNumberO (strOrO (dget q "acc") (dget q "accuracy"))
    let vmu := q.foldl (sensorStep lang) ([], [], [])
    let vm := addDirectGps lang (vmu.1, vmu.2.1) latLon.1 latLon.2 altD accD
    let profileName :=
      resolveProfileName profileName0 sessionId vehicleId eml lastNameById lastNameByEmail
    let imperialFlag := imperialOverride.getD selfImperial
    let unitPreference := if imperialFlag then "imperial" else "metric"
    let profile : Profile :=
      { name := profileName
        id := strOr vehicleId (slugify profileName)
        email := eml
        version := if appVersion ≠ "" then some appVersion else none }
    let vm := normalizeRuntimeUnits vm
    let vm := synthEconomy lang vm
    let values := scrubNonFinite vm.1
    let session : Session :=
      { id := sessionId, lastSeen := now, profile := profile,
        values := values, meta := vm.2, unknown := vmu.2.2,
        lang := lang, unitPreference := unitPreference }
    let byEmail :=
      if ¬ isPoorName profileName ∧ eml ≠ "" then
        dset lastNameByEmail eml profileName
      else lastNameByEmail
    let byId :=
      if ¬ isPoorName profileName ∧ strOr profile.id vehicleId ≠ "" then
        dset lastNameById (strOr profile.id vehicleId) profileName
      else lastNameById
    ⟨some session, byId, byEmail⟩

/-! ## Session cache (`_cleanup_sessions` / `_upsert_and_touch`) -/

/-- `_cleanup_sessions`: phase 1 evicts from the least-recently-used end
while the oldest entry is at or past the TTL cutoff; phase 2 evicts
oldest-first while the size cap is exceeded. -/
def cleanupSessions (now ttl : Int) (maxSessions : Nat)
    (sessions : List (String × Session)) : List (String × Session) :=
  let fresh := sessions.dropWhile (fun e => e.2.lastSeen ≤ now - ttl)
  fresh.drop (fresh.length - maxSessions)

/-- `_upsert_and_touch`: insert or replace by id, then move to the
most-recently-used end. -/
def upsertAndTouch (session : Session) (sessions : List (String × Session)) :
    List (String × Session) :=
  derase sessions session.id ++ [(session.id, session)]

/-! ## Multi-entry routing (`upsert_route` / `remove_route` / `_pick_route`) -/

/-- One registered route (`entry_id -> {...}`); the coordinator is an
opaque handle (`none` models Python `None`). -/
structure Route where
  coordinator : Option Nat
  email : String
  imperial : Bool
  lang : String
  deriving Repr, DecidableEq

/-- The mutable state of `TorqueReceiveDataView`. -/
structure ViewState where
  email : String
  lang : String
  imperial : Bool
  sessions : List (String × Session)
  ttlSeconds : Int
  maxSessions : Nat
  lastNameByEmail : NameMap
  lastNameById : NameMap
  entryRoutes : List (String × Route)
  emailToEntry : List (String × String)
  active : Bool
  /-- the legacy class attribute `coordinator` (defaults to `None`) -/
  coordinator : Option Nat
  deriving Repr, DecidableEq

/-- `TorqueReceiveDataView.__init__`. -/
def initView (emailFilter : Option String) (defaultLanguage : String)
    (imperialUnits : Bool) (sessionTtlSeconds : Option Int)
    (maxSessions : Option Nat) : ViewState :=
  { email := pyTrim (emailFilter.getD "")
    lang := pickLang defaultLanguage
    imperial := imperialUnits
    sessions := []
    ttlSeconds := match sessionTtlSeconds with
      | some t => if t ≠ 0 then t else SESSION_TTL_SECONDS
      | none => SESSION_TTL_SECONDS
    maxSessions := match maxSessions with
      | some m => if m ≠ 0 then m else MAX_SESSIONS
      | none => MAX_SESSIONS
    lastNameByEmail := []
    lastNameById := []
    entryRoutes := []
    emailToEntry := []
    active := true
    coordinator := none }

/-- `upsert_route`: release the tenant's previously recorded email
mapping, store the refreshed route, claim the new email, activate. -/
def upsertRoute (st : ViewState) (entryId : String) (email : Option String)
    (coordinator : Option Nat) (imperial : Bool) (lang : String) : ViewState :=
  let emailNorm := pyLower (pyTrim (email.getD ""))
  let emailToEntry :=
    match dget st.entryRoutes entryId with
    | some prev => if prev.email ≠ "" then derase st.emailToEntry prev.email
                   else st.emailToEntry
    | none => st.emailToEntry
  let entryRoutes := dset st.entryRoutes entryId
    ⟨coordinator, emailNorm, imperial, pickLang lang⟩
  let emailToEntry :=
    if emailNorm ≠ "" then dset emailToEntry emailNorm entryId else emailToEntry
  { st with entryRoutes := entryRoutes, emailToEntry := emailToEntry, active := true }

/-- `remove_route`: pop the tenant, pop its recorded email mapping, and
deactivate the view when no routes remain. -/
def removeRoute (st : ViewState) (entryId : String) : ViewState :=
  let prev := dget st.entryRoutes entryId
  let entryRoutes := derase st.entryRoutes entryId
  let emailToEntry :=
    match prev with
    | some r => if r.email ≠ "" then derase st.emailToEntry r.email else st.emailToEntry
    | none => st.emailToEntry
  { st with entryRoutes := entryRoutes, emailToEntry := emailToEntry,
            active := if entryRoutes = [] then false else st.active }

/-- `_pick_route`: route by email; a single registered route also accepts
a missing email; with no routes at all, fall back to the legacy
per-view configuration when one exists. -/
def pickRoute (st : ViewState) (email : String) : Option Route :=
  let key := pyLower (pyTrim email)
  if key ≠ "" ∧ (dget st.emailToEntry key).isSome then
    match dget st.emailToEntry key with
    | some entryId => dget st.entryRoutes entryId
    | none => none
  else if key = "" ∧ st.entryRoutes.length = 1 then
    (st.entryRoutes.head?).map Prod.snd
  else if st.entryRoutes = [] ∧ (st.coordinator.isSome ∨ st.email ≠ "") then
    some ⟨st.coordinator, pyLower (pyTrim st.email), st.imperial, st.lang⟩
  else none

/-! ## GET handler (`TorqueReceiveDataView.get`) -/

/-- The three response shapes of the handler (the literal bodies are
`"Not Found"` with status 404, `"IGNORED"` and `"OK!"` with status 200). -/
inductive Response where
  | notFound
  | ignored
  | ok
  deriving Repr, DecidableEq

/-- HTTP status code attached to each response. -/
def Response.status : Response → Nat
  | .notFound => 404
  | .ignored => 200
  | .ok => 200

/-- The effective-language line of the handler:
`_pick_lang(q.get("lang") or q.get("language") or route["lang"])`. -/
def resolveLang (q : List (String × String)) (routeLang : String) : String :=
  pickLang (strOr (strOr2 (dget q "lang") (dget q "language")) routeLang)

/-- Result of one GET request: the response, the updated view state, and
the session dispatched to the resolved route's coordinator (if any). -/
structure HandleResult where
  response : Response
  state : ViewState
  dispatched : Option Session
  deriving Repr, DecidableEq

/-- `TorqueReceiveDataView.get` (the POST handler has identical logic):
inactive view → 404; cleanup; resolve the route by sender email
(→ `IGNORED` when unresolved); parse (→ `IGNORED` when no session id);
upsert into the cache; dispatch to the route's coordinator; `OK!`. -/
def handleGet (st : ViewState) (q : List (String × String)) (now : Int) :
    HandleResult :=
  if ¬ st.active then ⟨.notFound, st, none⟩
  else
    let st := { st with
      sessions := cleanupSessions now st.ttlSeconds st.maxSessions st.sessions }
    let eml := pyTrim (strOr2 (dget q "eml") (dget q "email"))
    match pickRoute st eml with
    | none => ⟨.ignored, st, none⟩
    | some route =>
      let lang := resolveLang q route.lang
      let pr := parseFields q lang (some route.imperial) st.imperial now
        st.lastNameById st.lastNameByEmail
      let st := { st with lastNameById := pr.lastNameById,
                          lastNameByEmail := pr.lastNameByEmail }
      match pr.session with
      | none => ⟨.ignored, st, none⟩
      | some session =>
        let st := { st with sessions := upsertAndTouch session st.sessions }
        ⟨.ok, st, route.coordinator.map (fun _ => session)⟩

/-! # Lemmas

## Association-list (dict) lemmas -/

theorem dget_dset_self {β : Type} (d : List (String × β)) (k : String) (v : β) :
    dget (dset d k v) k = some v := by
  induction d with
  | nil => simp [dset, dget]
  | cons e rest ih =>
    by_cases h : e.1 = k <;> simp [dset, dget, h, ih]

theorem dget_dset_ne {β : Type} (d : List (String × β)) {k k' : String} (v : β)
    (h : k' ≠ k) : dget (dset d k v) k' = dget d k' := by
  induction d with
  | nil => simp [dset, dget, Ne.symm h]
  | cons e rest ih =>
    by_cases he : e.1 = k
    · simp [dset, dget, he, Ne.symm h]
    · simp only [dset, he, if_false, dget, ih]

theorem dget_derase_ne {β : Type} (d : List (String × β)) {k k' : String}
    (h : k' ≠ k) : dget (derase d k) k' = dget d k' := by
  induction d with
  | nil => simp [derase]
  | cons e rest ih =>
    by_cases he : e.1 = k
    · subst he
      simp [derase, dget, Ne.symm h]
    · simp only [derase, he, if_false, dget, ih]

theorem dget_append_single_ne {β : Type} (d : List (String × β))
    {k k' : String} (v : β) (h : k' ≠ k) :
    dget (d ++ [(k, v)]) k' = dget d k' := by
  induction d with
  | nil => simp [dget, Ne.symm h]
  | cons e rest ih =>
    by_cases he : e.1 = k' <;> simp [dget, he, ih]

theorem dget_dsetdefault_ne {β : Type} (d : List (String × β)) {k k' : String}
    (v : β) (h : k' ≠ k) : dget (dsetdefault d k v) k' = dget d k' := by
  unfold dsetdefault
  split
  · rfl
  · exact dget_append_single_ne d v h

theorem derase_sublist {β : Type} (d : List (String × β)) (k : String) :
    List.Sublist (derase d k) d := by
  induction d with
  | nil => simp [derase]
  | cons e rest ih =>
    by_cases he : e.1 = k
    · rw [derase, if_pos he]
      exact List.sublist_cons_self e rest
    · rw [derase, if_neg he]
      exact ih.cons₂ e

/-! ## Session-cache lemmas (claim C1) -/

/-- A cache built by a sequence of `_upsert_and_touch` calls starting from
the empty `OrderedDict`. -/
def runUpserts (tr : List Session) : List (String × Session) :=
  tr.foldl (fun c s => upsertAndTouch s c) []

/-- Entries of an `upsertAndTouch` result come from the old cache or are
the new session. -/
theorem mem_upsertAndTouch {s : Session} {c : List (String × Session)} {e}
    (h : e ∈ upsertAndTouch s c) : e ∈ c ∨ e = (s.id, s) := by
  unfold upsertAndTouch at h
  rcases List.mem_append.mp h with h | h
  · exact Or.inl ((derase_sublist c s.id).subset h)
  · exact Or.inr (List.mem_singleton.mp h)

/-- Recency order of the cache list: `lastSeen` is non-decreasing from the
least-recently-used end. -/
def RecencyOrdered (c : List (String × Session)) : Prop :=
  List.Pairwise (fun a b => a.2.lastSeen ≤ b.2.lastSeen) c

/-- `upsertAndTouch` with a session at least as recent as everything in
the cache keeps the cache recency-ordered. -/
theorem upsertAndTouch_recencyOrdered {s : Session} {c : List (String × Session)}
    (hc : RecencyOrdered c) (hle : ∀ e ∈ c, e.2.lastSeen ≤ s.lastSeen) :
    RecencyOrdered (upsertAndTouch s c) := by
  unfold upsertAndTouch RecencyOrdered
  rw [List.pairwise_append]
  refine ⟨hc.sublist (derase_sublist c s.id), List.pairwise_singleton _ _, ?_⟩
  intro a ha b hb
  rw [List.mem_singleton] at hb
  subst hb
  exact hle a ((derase_sublist c s.id).subset ha)

/-- Invariant of a fold of `upsertAndTouch` calls over a trace whose
timestamps are non-decreasing: the result stays recency-ordered. -/
theorem runUpserts_go_recencyOrdered :
    ∀ (tr : List Session) (c : List (String × Session)),
      List.Pairwise (fun a b : Session => a.lastSeen ≤ b.lastSeen) tr →
      RecencyOrdered c →
      (∀ e ∈ c, ∀ s ∈ tr, e.2.lastSeen ≤ s.lastSeen) →
      RecencyOrdered (tr.foldl (fun c s => upsertAndTouch s c) c)
  | [], c, _, hc, _ => hc
  | s :: rest, c, htr, hc, hcb => by
    rw [List.pairwise_cons] at htr
    refine runUpserts_go_recencyOrdered rest (upsertAndTouch s c) htr.2
      (upsertAndTouch_recencyOrdered hc fun e he =>
        hcb e he s (List.mem_cons_self s rest)) ?_
    intro e he s' hs'
    rcases mem_upsertAndTouch he with h | h
    · exact hcb e h s' (List.mem_cons_of_mem s hs')
    · subst h
      exact htr.1 s' hs'

/-- Every entry of the fold result carries the timestamp of some trace
session (or was already in the initial cache). -/
theorem mem_runUpserts_go :
    ∀ (tr : List Session) (c : List (String × Session)) (e : String × Session),
      e ∈ tr.foldl (fun c s => upsertAndTouch s c) c →
      e ∈ c ∨ ∃ s ∈ tr, e = (s.id, s)
  | [], _, _, h => Or.inl h
  | s :: rest, c, e, h => by
    rcases mem_runUpserts_go rest (upsertAndTouch s c) e h with h | ⟨s', hs', he⟩
    · rcases mem_upsertAndTouch h with h | h
      · exact Or.inl h
      · exact Or.inr ⟨s, List.mem_cons_self s rest, h⟩
    · exact Or.inr ⟨s', List.mem_cons_of_mem s hs', he⟩

/-- After the TTL phase of `_cleanup_sessions` on a recency-ordered cache,
every remaining entry is strictly fresher than the cutoff. -/
theorem dropWhile_stale_fresh :
    ∀ (c : List (String × Session)) (cutoff : Int), RecencyOrdered c →
      ∀ e ∈ c.dropWhile (fun e => e.2.lastSeen ≤ cutoff), cutoff < e.2.lastSeen
  | [], _, _, e, he => by simp [List.dropWhile] at he
  | x :: rest, cutoff, hc, e, he => by
    rw [RecencyOrdered, List.pairwise_cons] at hc
    by_cases hx : x.2.lastSeen ≤ cutoff
    · rw [List.dropWhile_cons_of_pos (by simpa using hx)] at he
      exact dropWhile_stale_fresh rest cutoff hc.2 e he
    · rw [List.dropWhile_cons_of_neg (by simpa using hx)] at he
      push_neg at hx
      rcases List.mem_cons.mp he with rfl | he
      · exact hx
      · exact lt_of_lt_of_le hx (hc.1 e he)

/-- The size-cap phase of `_cleanup_sessions` alone bounds the cache. -/
theorem cleanupSessions_length_le (now ttl : Int) (maxSessions : Nat)
    (c : List (String × Session)) :
    (cleanupSessions now ttl maxSessions c).length ≤ maxSessions := by
  unfold cleanupSessions
  simp only [List.length_drop]
  omega

/-- A minimal concrete session (used by claim witnesses). -/
def testSession (id : String) (t : Int) : Session :=
  { id := id, lastSeen := t,
    profile := { name := "n", id := "i", email := "", version := none },
    values := [], meta := [], unknown := [], lang := "en",
    unitPreference := "metric" }

/-- C1: after every `_cleanup_sessions()` call, for every prior sequence
of `_upsert_and_touch` insertions (timestamps taken from a monotone
clock, as `_now_utc` delivers them) and every configured TTL and session
cap, the cache holds at most `maxSessions` entries and every remaining
entry's `last_seen` is at least `now - ttl`. -/
theorem cleanup_ttl_lru_invariant (tr : List Session) (now ttl : Int)
    (maxSessions : Nat)
    (hmono : List.Pairwise (fun a b : Session => a.lastSeen ≤ b.lastSeen) tr) :
    (cleanupSessions now ttl maxSessions (runUpserts tr)).length ≤ maxSessions ∧
      ∀ e ∈ cleanupSessions now ttl maxSessions (runUpserts tr),
        now - ttl ≤ e.2.lastSeen := by
  refine ⟨cleanupSessions_length_le now ttl maxSessions (runUpserts tr), ?_⟩
  intro e he
  have hmem : e ∈ (runUpserts tr).dropWhile (fun e => e.2.lastSeen ≤ now - ttl) := by
    unfold cleanupSessions at he
    exact List.drop_subset _ _ he
  have hro : RecencyOrdered (runUpserts tr) := by
    refine runUpserts_go_recencyOrdered tr [] hmono List.Pairwise.nil ?_
    intro e he
    simp at he
  exact le_of_lt (dropWhile_stale_fresh (runUpserts tr) (now - ttl) hro e hmem)

theorem cleanup_ttl_lru_invariant_witness :
    (cleanupSessions 100 30 1
        (runUpserts [testSession "a" 10, testSession "b" 95, testSession "c" 99])).length ≤ 1 ∧
      ∀ e ∈ cleanupSessions 100 30 1
          (runUpserts [testSession "a" 10, testSession "b" 95, testSession "c" 99]),
        100 - 30 ≤ e.2.lastSeen :=
  cleanup_ttl_lru_invariant
    [testSession "a" 10, testSession "b" 95, testSession "c" 99] 100 30 1
    (by simp [List.pairwise_cons, testSession])

/-! ## Time-normalization lemmas (claim C8) -/

/-- `dset` at a present key does not change the key sequence. -/
theorem dset_map_fst_of_mem {β : Type} {d : List (String × β)} {k : String}
    (v : β) (h : (dget d k).isSome) :
    (dset d k v).map Prod.fst = d.map Prod.fst := by
  induction d with
  | nil => simp [dget] at h
  | cons e rest ih =>
    by_cases he : e.1 = k
    · simp [dset, he]
    · rw [dget, if_neg he] at h
      simp [dset, he, ih h]

/-- A key at which `normStep` is a no-op: no seconds-tagged numeric
trip-duration value sits there. -/
def NormSettled (vm : Values × Meta) (k : String) : Prop :=
  ∀ m, dget vm.2 k = some m → SECONDS_TO_MIN.contains k → pyTrim m.unit = "s" →
    ∀ x, dget vm.1 k ≠ some (.num x)

theorem normStep_of_settled {vm : Values × Meta} {k : String}
    (h : NormSettled vm k) : normStep vm k = vm := by
  unfold normStep
  split
  · rfl
  · rename_i m hm
    split
    · rename_i hcond
      split
      · rename_i x hx
        exact absurd hx (h m hm (by simpa using hcond.1) hcond.2 x)
      · rfl
    · rfl

theorem normStep_settles (vm : Values × Meta) (k : String) :
    NormSettled (normStep vm k) k := by
  unfold normStep
  split
  · rename_i hm
    intro m' hm' _ _ _ _
    rw [hm] at hm'
    cases hm'
  · rename_i m hm
    split
    · rename_i hcond
      split
      · rename_i x hx
        intro m' hm' _ hu y _
        rw [dget_dset_self] at hm'
        cases hm'
        have hmin : pyTrim "min" ≠ "s" := by decide
        exact hmin hu
      · rename_i hnofire
        intro m' hm' _ _ y hy
        exact hnofire y hy
    · rename_i hcond
      intro m' hm' hc hu _ _
      rw [hm] at hm'
      cases hm'
      exact hcond ⟨by simpa using hc, hu⟩

theorem normStep_preserves_settled {vm : Values × Meta} {k : String}
    (k'' : String) (h : NormSettled vm k) : NormSettled (normStep vm k'') k := by
  by_cases hk : k'' = k
  · subst hk
    exact normStep_settles vm k''
  · unfold normStep
    split
    · exact h
    · rename_i m hm
      split
      · split
        · rename_i x hx
          intro m' hm' hc hu y hy
          dsimp only at hm' hy
          rw [dget_dset_ne _ _ (Ne.symm hk)] at hm' hy
          exact h m' hm' hc hu y hy
        · exact h
      · exact h

theorem foldl_normStep_preserves_settled :
    ∀ (keys : List String) (vm : Values × Meta) (k : String),
      NormSettled vm k → NormSettled (keys.foldl normStep vm) k
  | [], _, _, h => h
  | k'' :: rest, vm, k, h =>
    foldl_normStep_preserves_settled rest (normStep vm k'') k
      (normStep_preserves_settled k'' h)

theorem foldl_normStep_settles :
    ∀ (keys : List String) (vm : Values × Meta) (k : String), k ∈ keys →
      NormSettled (keys.foldl normStep vm) k
  | [], _, _, h => absurd h (List.not_mem_nil _)
  | k'' :: rest, vm, k, h => by
    by_cases hk : k ∈ rest
    · exact foldl_normStep_settles rest (normStep vm k'') k hk
    · have : k = k'' := by
        rcases List.mem_cons.mp h with h | h
        · exact h
        · exact absurd h hk
      subst this
      exact foldl_normStep_preserves_settled rest (normStep vm k) k
        (normStep_settles vm k)

theorem foldl_normStep_of_settled :
    ∀ (keys : List String) (vm : Values × Meta),
      (∀ k ∈ keys, NormSettled vm k) → keys.foldl normStep vm = vm
  | [], _, _ => rfl
  | k :: rest, vm, h => by
    rw [List.foldl_cons, normStep_of_settled (h k (List.mem_cons_self k rest))]
    exact foldl_normStep_of_settled rest vm
      (fun k' hk' => h k' (List.mem_cons_of_mem k hk'))

/-- `normStep` never changes the meta key sequence. -/
theorem normStep_meta_fst (vm : Values × Meta) (k : String) :
    (normStep vm k).2.map Prod.fst = vm.2.map Prod.fst := by
  unfold normStep
  split
  · rfl
  · rename_i m hm
    split
    · split
      · exact dset_map_fst_of_mem _ (by rw [hm]; rfl)
      · rfl
    · rfl

theorem foldl_normStep_meta_fst :
    ∀ (keys : List String) (vm : Values × Meta),
      (keys.foldl normStep vm).2.map Prod.fst = vm.2.map Prod.fst
  | [], _ => rfl
  | k :: rest, vm => by
    rw [List.foldl_cons, foldl_normStep_meta_fst rest (normStep vm k),
      normStep_meta_fst]

/-- C8: the seconds→minutes normalization of the three trip-duration
measurements is idempotent: on values/meta whose unit metadata for those
measurements is already "min" it changes nothing, and applying it twice
always equals applying it once. -/
theorem timeNormalization_idempotent (vm : Values × Meta) :
    ((∀ k ∈ SECONDS_TO_MIN, ∀ m, dget vm.2 k = some m → m.unit = "min") →
        normalizeRuntimeUnits vm = vm) ∧
      normalizeRuntimeUnits (normalizeRuntimeUnits vm) = normalizeRuntimeUnits vm := by
  constructor
  · intro hmin
    unfold normalizeRuntimeUnits
    apply foldl_normStep_of_settled
    intro k _ m hm hc hu _ _
    rw [hmin k (by simpa using hc) m hm] at hu
    exact absurd hu (by decide)
  · unfold normalizeRuntimeUnits
    rw [foldl_normStep_meta_fst]
    exact foldl_normStep_of_settled _ _
      (fun k hk => foldl_normStep_settles _ vm k hk)

theorem timeNormalization_idempotent_witness :
    (normalizeRuntimeUnits
        ([("trip_time_since_start", Val.num 2)],
         [("trip_time_since_start",
           ⟨"Trip Time(Since journey start)", "min",
            "Trip Time(Since journey start)", "ff1266"⟩)]) =
      ([("trip_time_since_start", Val.num 2)],
       [("trip_time_since_start",
         ⟨"Trip Time(Since journey start)", "min",
          "Trip Time(Since journey start)", "ff1266"⟩)])) ∧
    (normalizeRuntimeUnits (normalizeRuntimeUnits
        ([("trip_time_since_start", Val.num 2)],
         [("trip_time_since_start",
           ⟨"Trip Time(Since journey start)", "min",
            "Trip Time(Since journey start)", "ff1266"⟩)])) =
      normalizeRuntimeUnits
        ([("trip_time_since_start", Val.num 2)],
         [("trip_time_since_start",
           ⟨"Trip Time(Since journey start)", "min",
            "Trip Time(Since journey start)", "ff1266"⟩)])) :=
  ⟨(timeNormalization_idempotent _).1 (by decide),
   (timeNormalization_idempotent _).2⟩

/-! ## Fuel-economy synthesis lemmas (claim C7) -/

theorem econAdd_preserves_num {lang : String} {vm : Values × Meta}
    {short' : String} {val : Rat} {unit fullEn : String} {short : String}
    {y : Rat} (h : dget vm.1 short = some (.num y)) :
    dget (econAdd lang vm short' val unit fullEn).1 short = some (.num y) := by
  unfold econAdd
  split
  · exact h
  · rename_i hguard
    by_cases hs : short = short'
    · subst hs
      rw [h] at hguard
      simp [isNum] at hguard
    · dsimp only
      rw [dget_dset_ne _ _ hs]
      exact h

theorem econAdd_fst_preserves_ne {lang : String} {vm : Values × Meta}
    {short' : String} (val : Rat) (unit fullEn : String) {short : String}
    (h : short ≠ short') :
    dget (econAdd lang vm short' val unit fullEn).1 short = dget vm.1 short := by
  unfold econAdd
  split
  · rfl
  · exact dget_dset_ne _ _ h

theorem synthBlock_preserves_num {lang : String} {vm : Values × Meta}
    {kplKey l100Key mpgKey l100Full kplFull : String} {short : String}
    {y : Rat} (h : dget vm.1 short = some (.num y)) :
    dget (synthBlock lang vm kplKey l100Key mpgKey l100Full kplFull).1 short
      = some (.num y) := by
  unfold synthBlock
  dsimp only
  split
  · exact econAdd_preserves_num h
  · split
    · exact econAdd_preserves_num h
    · split
      · exact econAdd_preserves_num h
      · exact h

theorem synthBlock_fst_preserves_ne {lang : String} {vm : Values × Meta}
    {kplKey l100Key mpgKey l100Full kplFull : String} {short : String}
    (h1 : short ≠ kplKey) (h2 : short ≠ l100Key) :
    dget (synthBlock lang vm kplKey l100Key mpgKey l100Full kplFull).1 short
      = dget vm.1 short := by
  unfold synthBlock
  dsimp only
  split
  · exact econAdd_fst_preserves_ne _ _ _ h2
  · split
    · exact econAdd_fst_preserves_ne _ _ _ h1
    · split
      · exact econAdd_fst_preserves_ne _ _ _ h2
      · rfl

theorem synthBlock_derive_l100 {lang : String} {vm : Values × Meta}
    {kplKey l100Key mpgKey l100Full kplFull : String} {x : Rat}
    (hk : dget vm.1 kplKey = some (.num x)) (hx : 0 < x)
    (hl : isNum (dget vm.1 l100Key) = false) :
    dget (synthBlock lang vm kplKey l100Key mpgKey l100Full kplFull).1 l100Key
      = some (.num (rdiv (mkRat 100 1) x)) := by
  unfold synthBlock
  dsimp only
  rw [if_pos ⟨by rw [hk]; rfl, by rw [hl]; simp, by rw [hk]; exact hx⟩]
  unfold econAdd
  rw [if_neg (by rw [hl]; simp)]
  dsimp only
  rw [hk]
  exact dget_dset_self _ _ _

theorem synthBlock_derive_kpl {lang : String} {vm : Values × Meta}
    {kplKey l100Key mpgKey l100Full kplFull : String} {x : Rat}
    (hl : dget vm.1 l100Key = some (.num x)) (hx : 0 < x)
    (hk : isNum (dget vm.1 kplKey) = false) :
    dget (synthBlock lang vm kplKey l100Key mpgKey l100Full kplFull).1 kplKey
      = some (.num (rdiv (mkRat 100 1) x)) := by
  unfold synthBlock
  dsimp only
  rw [if_neg (by rw [hk]; simp)]
  rw [if_pos ⟨by rw [hl]; rfl, by rw [hk]; simp, by rw [hl]; exact hx⟩]
  unfold econAdd
  rw [if_neg (by rw [hk]; simp)]
  dsimp only
  rw [hl]
  exact dget_dset_self _ _ _

theorem synthBlock_derive_l100_from_mpg {lang : String} {vm : Values × Meta}
    {kplKey l100Key mpgKey l100Full kplFull : String} {x : Rat}
    (hm : dget vm.1 mpgKey = some (.num x)) (hx : 0 < x)
    (hl : isNum (dget vm.1 l100Key) = false)
    (hk : isNum (dget vm.1 kplKey) = false) :
    dget (synthBlock lang vm kplKey l100Key mpgKey l100Full kplFull).1 l100Key
      = some (.num (rdiv MPG_TO_L_PER_100 x)) := by
  unfold synthBlock
  dsimp only
  rw [if_neg (by rw [hk]; simp)]
  rw [if_neg (by rw [hl]; simp)]
  rw [if_pos ⟨by rw [hm]; rfl, by rw [hl]; simp, by rw [hm]; exact hx⟩]
  unfold econAdd
  rw [if_neg (by rw [hl]; simp)]
  dsimp only
  rw [hm]
  exact dget_dset_self _ _ _

/-- `_synth_economy` unfolded to its three context blocks. -/
theorem synthEconomy_eq (lang : String) (vm : Values × Meta) :
    synthEconomy lang vm =
      synthBlock lang (synthBlock lang (synthBlock lang vm
        "kpl_long_term_avg" "l_per_100_long_term_avg" "mpg_long_term_avg"
        "Litres Per 100 Kilometer(Long Term Average)"
        "Kilometers Per Litre(Long Term Average)")
        "kpl_trip_avg" "l_per_100_trip_avg" "mpg_trip_avg"
        "Trip average Litres/100 KM" "Trip average KPL")
        "kpl_instant" "l_per_100_instant" "mpg_instant"
        "Litres Per 100 Kilometer(Instant)" "Kilometers Per Litre(Instant)" := rfl

theorem rdiv_mkRat100 (x : Rat) : rdiv (mkRat 100 1) x = 100 / x := by
  rw [rdiv_eq]
  norm_num

theorem rdiv_mpg235 (x : Rat) : rdiv MPG_TO_L_PER_100 x = 235.215 / x := by
  rw [rdiv_eq]
  norm_num [MPG_TO_L_PER_100, Rat.mkRat_eq_divInt, Rat.divInt_eq_div]

/-- C7 counterexample: `kpl_instant = -5` is present as a finite number
with `l_per_100_instant` absent, yet nothing is derived (the code also
requires the present value to be strictly positive), refuting the
unconditional "derives the absent one as 100 / presentValue". -/
theorem economySynthesis_counterexample :
    ((parseFields [("session", "s1"), ("kff1203", "-5")] "en" none false 0 [] []).session.bind
        (fun s => dget s.values "kpl_instant")) = some (Val.num (-5)) ∧
    ((parseFields [("session", "s1"), ("kff1203", "-5")] "en" none false 0 [] []).session.bind
        (fun s => dget s.values "l_per_100_instant")) = none := by
  constructor
  · decide
  · decide

/-- C7 (amended): for each economy context, when exactly one of the pair
is present as a finite number, **strictly positive**, and the other is
absent, the missing figure is derived as `100 / presentValue` (with
235.215 for the miles-per-gallon form, and with kpl taking priority over
mpg); and synthesis never overwrites an existing finite numeric value. -/
theorem economySynthesis_amended (values : Values) (meta : Meta) (lang : String) :
    (∀ short y, dget values short = some (.num y) →
        dget (synthEconomy lang (values, meta)).1 short = some (.num y)) ∧
    (∀ x : Rat, 0 < x →
       ((dget values "kpl_long_term_avg" = some (.num x) →
          isNum (dget values "l_per_100_long_term_avg") = false →
          dget (synthEconomy lang (values, meta)).1 "l_per_100_long_term_avg"
            = some (.num (100 / x))) ∧
        (dget values "l_per_100_long_term_avg" = some (.num x) →
          isNum (dget values "kpl_long_term_avg") = false →
          dget (synthEconomy lang (values, meta)).1 "kpl_long_term_avg"
            = some (.num (100 / x))) ∧
        (dget values "mpg_long_term_avg" = some (.num x) →
          isNum (dget values "l_per_100_long_term_avg") = false →
          isNum (dget values "kpl_long_term_avg") = false →
          dget (synthEconomy lang (values, meta)).1 "l_per_100_long_term_avg"
            = some (.num (235.215 / x)))) ∧
       ((dget values "kpl_trip_avg" = some (.num x) →
          isNum (dget values "l_per_100_trip_avg") = false →
          dget (synthEconomy lang (values, meta)).1 "l_per_100_trip_avg"
            = some (.num (100 / x))) ∧
        (dget values "l_per_100_trip_avg" = some (.num x) →
          isNum (dget values "kpl_trip_avg") = false →
          dget (synthEconomy lang (values, meta)).1 "kpl_trip_avg"
            = some (.num (100 / x))) ∧
        (dget values "mpg_trip_avg" = some (.num x) →
          isNum (dget values "l_per_100_trip_avg") = false →
          isNum (dget values "kpl_trip_avg") = false →
          dget (synthEconomy lang (values, meta)).1 "l_per_100_trip_avg"
            = some (.num (235.215 / x)))) ∧
       ((dget values "kpl_instant" = some (.num x) →
          isNum (dget values "l_per_100_instant") = false →
          dget (synthEconomy lang (values, meta)).1 "l_per_100_instant"
            = some (.num (100 / x))) ∧
        (dget values "l_per_100_instant" = some (.num x) →
          isNum (dget values "kpl_instant") = false →
          dget (synthEconomy lang (values, meta)).1 "kpl_instant"
            = some (.num (100 / x))) ∧
        (dget values "mpg_instant" = some (.num x) →
          isNum (dget values "l_per_100_instant") = false →
          isNum (dget values "kpl_instant") = false →
          dget (synthEconomy lang (values, meta)).1 "l_per_100_instant"
            = some (.num (235.215 / x))))) := by
  constructor
  · intro short y h
    rw [synthEconomy_eq]
    exact synthBlock_preserves_num (synthBlock_preserves_num
      (synthBlock_preserves_num h))
  · intro x hx
    refine ⟨⟨?_, ?_, ?_⟩, ⟨?_, ?_, ?_⟩, ?_, ?_, ?_⟩
    · intro h1 h2
      rw [synthEconomy_eq, ← rdiv_mkRat100 x]
      rw [synthBlock_fst_preserves_ne
        (show ("l_per_100_long_term_avg" : String) ≠ "kpl_instant" from by decide)
        (show ("l_per_100_long_term_avg" : String) ≠ "l_per_100_instant" from by decide)]
      rw [synthBlock_fst_preserves_ne
        (show ("l_per_100_long_term_avg" : String) ≠ "kpl_trip_avg" from by decide)
        (show ("l_per_100_long_term_avg" : String) ≠ "l_per_100_trip_avg" from by decide)]
      exact synthBlock_derive_l100
        (by
          exact h1)
        hx
        (by
          exact h2)
    · intro h1 h2
      rw [synthEconomy_eq, ← rdiv_mkRat100 x]
      rw [synthBlock_fst_preserves_ne
        (show ("kpl_long_term_avg" : String) ≠ "kpl_instant" from by decide)
        (show ("kpl_long_term_avg" : String) ≠ "l_per_100_instant" from by decide)]
      rw [synthBlock_fst_preserves_ne
        (show ("kpl_long_term_avg" : String) ≠ "kpl_trip_avg" from by decide)
        (show ("kpl_long_term_avg" : String) ≠ "l_per_100_trip_avg" from by decide)]
      exact synthBlock_derive_kpl
        (by
          exact h1)
        hx
        (by
          exact h2)
    · intro h1 h2 h3
      rw [synthEconomy_eq, ← rdiv_mpg235 x]
      rw [synthBlock_fst_preserves_ne
        (show ("l_per_100_long_term_avg" : String) ≠ "kpl_instant" from by decide)
        (show ("l_per_100_long_term_avg" : String) ≠ "l_per_100_instant" from by decide)]
      rw [synthBlock_fst_preserves_ne
        (show ("l_per_100_long_term_avg" : String) ≠ "kpl_trip_avg" from by decide)
        (show ("l_per_100_long_term_avg" : String) ≠ "l_per_100_trip_avg" from by decide)]
      exact synthBlock_derive_l100_from_mpg
        (by
          exact h1)
        hx
        (by
          exact h2)
        (by
          exact h3)
    · intro h1 h2
      rw [synthEconomy_eq, ← rdiv_mkRat100 x]
      rw [synthBlock_fst_preserves_ne
        (show ("l_per_100_trip_avg" : String) ≠ "kpl_instant" from by decide)
        (show ("l_per_100_trip_avg" : String) ≠ "l_per_100_instant" from by decide)]
      exact synthBlock_derive_l100
        (by
          rw [synthBlock_fst_preserves_ne
            (show ("kpl_trip_avg" : String) ≠ "kpl_long_term_avg" from by decide)
            (show ("kpl_trip_avg" : String) ≠ "l_per_100_long_term_avg" from by decide)]
          exact h1)
        hx
        (by
          rw [synthBlock_fst_preserves_ne
            (show ("l_per_100_trip_avg" : String) ≠ "kpl_long_term_avg" from by decide)
            (show ("l_per_100_trip_avg" : String) ≠ "l_per_100_long_term_avg" from by decide)]
          exact h2)
    · intro h1 h2
      rw [synthEconomy_eq, ← rdiv_mkRat100 x]
      rw [synthBlock_fst_preserves_ne
        (show ("kpl_trip_avg" : String) ≠ "kpl_instant" from by decide)
        (show ("kpl_trip_avg" : String) ≠ "l_per_100_instant" from by decide)]
      exact synthBlock_derive_kpl
        (by
          rw [synthBlock_fst_preserves_ne
            (show ("l_per_100_trip_avg" : String) ≠ "kpl_long_term_avg" from by decide)
            (show ("l_per_100_trip_avg" : String) ≠ "l_per_100_long_term_avg" from by decide)]
          exact h1)
        hx
        (by
          rw [synthBlock_fst_preserves_ne
            (show ("kpl_trip_avg" : String) ≠ "kpl_long_term_avg" from by decide)
            (show ("kpl_trip_avg" : String) ≠ "l_per_100_long_term_avg" from by decide)]
          exact h2)
    · intro h1 h2 h3
      rw [synthEconomy_eq, ← rdiv_mpg235 x]
      rw [synthBlock_fst_preserves_ne
        (show ("l_per_100_trip_avg" : String) ≠ "kpl_instant" from by decide)
        (show ("l_per_100_trip_avg" : String) ≠ "l_per_100_instant" from by decide)]
      exact synthBlock_derive_l100_from_mpg
        (by
          rw [synthBlock_fst_preserves_ne
            (show ("mpg_trip_avg" : String) ≠ "kpl_long_term_avg" from by decide)
            (show ("mpg_trip_avg" : String) ≠ "l_per_100_long_term_avg" from by decide)]
          exact h1)
        hx
        (by
          rw [synthBlock_fst_preserves_ne
            (show ("l_per_100_trip_avg" : String) ≠ "kpl_long_term_avg" from by decide)
            (show ("l_per_100_trip_avg" : String) ≠ "l_per_100_long_term_avg" from by decide)]
          exact h2)
        (by
          rw [synthBlock_fst_preserves_ne
            (show ("kpl_trip_avg" : String) ≠ "kpl_long_term_avg" from by decide)
            (show ("kpl_trip_avg" : String) ≠ "l_per_100_long_term_avg" from by decide)]
          exact h3)
    · intro h1 h2
      rw [synthEconomy_eq, ← rdiv_mkRat100 x]
      exact synthBlock_derive_l100
        (by
          rw [synthBlock_fst_preserves_ne
            (show ("kpl_instant" : String) ≠ "kpl_trip_avg" from by decide)
            (show ("kpl_instant" : String) ≠ "l_per_100_trip_avg" from by decide)]
          rw [synthBlock_fst_preserves_ne
            (show ("kpl_instant" : String) ≠ "kpl_long_term_avg" from by decide)
            (show ("kpl_instant" : String) ≠ "l_per_100_long_term_avg" from by decide)]
          exact h1)
        hx
        (by
          rw [synthBlock_fst_preserves_ne
            (show ("l_per_100_instant" : String) ≠ "kpl_trip_avg" from by decide)
            (show ("l_per_100_instant" : String) ≠ "l_per_100_trip_avg" from by decide)]
          rw [synthBlock_fst_preserves_ne
            (show ("l_per_100_instant" : String) ≠ "kpl_long_term_avg" from by decide)
            (show ("l_per_100_instant" : String) ≠ "l_per_100_long_term_avg" from by decide)]
          exact h2)
    · intro h1 h2
      rw [synthEconomy_eq, ← rdiv_mkRat100 x]
      exact synthBlock_derive_kpl
        (by
          rw [synthBlock_fst_preserves_ne
            (show ("l_per_100_instant" : String) ≠ "kpl_trip_avg" from by decide)
            (show ("l_per_100_instant" : String) ≠ "l_per_100_trip_avg" from by decide)]
          rw [synthBlock_fst_preserves_ne
            (show ("l_per_100_instant" : String) ≠ "kpl_long_term_avg" from by decide)
            (show ("l_per_100_instant" : String) ≠ "l_per_100_long_term_avg" from by decide)]
          exact h1)
        hx
        (by
          rw [synthBlock_fst_preserves_ne
            (show ("kpl_instant" : String) ≠ "kpl_trip_avg" from by decide)
            (show ("kpl_instant" : String) ≠ "l_per_100_trip_avg" from by decide)]
          rw [synthBlock_fst_preserves_ne
            (show ("kpl_instant" : String) ≠ "kpl_long_term_avg" from by decide)
            (show ("kpl_instant" : String) ≠ "l_per_100_long_term_avg" from by decide)]
          exact h2)
    · intro h1 h2 h3
      rw [synthEconomy_eq, ← rdiv_mpg235 x]
      exact synthBlock_derive_l100_from_mpg
        (by
          rw [synthBlock_fst_preserves_ne
            (show ("mpg_instant" : String) ≠ "kpl_trip_avg" from by decide)
            (show ("mpg_instant" : String) ≠ "l_per_100_trip_avg" from by decide)]
          rw [synthBlock_fst_preserves_ne
            (show ("mpg_instant" : String) ≠ "kpl_long_term_avg" from by decide)
            (show ("mpg_instant" : String) ≠ "l_per_100_long_term_avg" from by decide)]
          exact h1)
        hx
        (by
          rw [synthBlock_fst_preserves_ne
            (show ("l_per_100_instant" : String) ≠ "kpl_trip_avg" from by decide)
            (show ("l_per_100_instant" : String) ≠ "l_per_100_trip_avg" from by decide)]
          rw [synthBlock_fst_preserves_ne
            (show ("l_per_100_instant" : String) ≠ "kpl_long_term_avg" from by decide)
            (show ("l_per_100_instant" : String) ≠ "l_per_100_long_term_avg" from by decide)]
          exact h2)
        (by
          rw [synthBlock_fst_preserves_ne
            (show ("kpl_instant" : String) ≠ "kpl_trip_avg" from by decide)
            (show ("kpl_instant" : String) ≠ "l_per_100_trip_avg" from by decide)]
          rw [synthBlock_fst_preserves_ne
            (show ("kpl_instant" : String) ≠ "kpl_long_term_avg" from by decide)
            (show ("kpl_instant" : String) ≠ "l_per_100_long_term_avg" from by decide)]
          exact h3)

theorem economySynthesis_amended_witness :
    dget (synthEconomy "en" ([("kpl_instant", Val.num 10)], [])).1 "l_per_100_instant"
      = some (Val.num 10) := by
  have h := (((economySynthesis_amended [("kpl_instant", Val.num 10)] [] "en").2
    10 (by norm_num)).2.2).1 (by decide) (by decide)
  rw [h]
  norm_num

/-! ## `_parse_fields` characterization lemmas -/

/-- A payload whose (stripped) session field is empty parses to nothing
and leaves the name memories untouched. -/
theorem parseFields_none {q : List (String × String)} {lang : String}
    {imp : Option Bool} {selfImp : Bool} {now : Int} {byId byEmail : NameMap}
    (hsid : pyTrim ((dget q "session").getD "") = "") :
    parseFields q lang imp selfImp now byId byEmail = ⟨none, byId, byEmail⟩ := by
  simp only [parseFields]
  rw [if_pos hsid]

/-- With a session id present, the parsed `values` dict is exactly the
sensor-code fold, the direct positional assignments, the two
post-processing passes and the final scrub. -/
theorem parseFields_values {q : List (String × String)} {lang : String}
    {imp : Option Bool} {selfImp : Bool} {now : Int} {byId byEmail : NameMap}
    (hsid : pyTrim ((dget q "session").getD "") ≠ "") :
    (parseFields q lang imp selfImp now byId byEmail).session.map Session.values
      = some (scrubNonFinite ((synthEconomy lang (normalizeRuntimeUnits
          (addDirectGps lang
            ((q.foldl (sensorStep lang) ([], [], [])).1,
             (q.foldl (sensorStep lang) ([], [], [])).2.1)
            (validLatLon (parseNumberO (dget q "lat"))
              (parseNumberO (dget q "lon"))).1
            (validLatLon (parseNumberO (dget q "lat"))
              (parseNumberO (dget q "lon"))).2
            (parseNumberO (strOrO (dget q "alt") (dget q "altitude")))
            (parseNumberO (strOrO (dget q "acc") (dget q "accuracy")))))).1)) := by
  simp only [parseFields]
  rw [if_neg hsid]
  rfl

/-- With a session id present, the session's language annotation is the
language the parser was invoked with. -/
theorem parseFields_lang {q : List (String × String)} {lang : String}
    {imp : Option Bool} {selfImp : Bool} {now : Int} {byId byEmail : NameMap}
    (hsid : pyTrim ((dget q "session").getD "") ≠ "") :
    (parseFields q lang imp selfImp now byId byEmail).session.map Session.lang
      = some lang := by
  simp only [parseFields]
  rw [if_neg hsid]
  rfl

/-- With a session id present, the profile name is the resolver chain's
result. -/
theorem parseFields_name {q : List (String × String)} {lang : String}
    {imp : Option Bool} {selfImp : Bool} {now : Int} {byId byEmail : NameMap}
    (hsid : pyTrim ((dget q "session").getD "") ≠ "") :
    (parseFields q lang imp selfImp now byId byEmail).session.map
        (fun s => s.profile.name)
      = some (resolveProfileName (extractProfileName q)
          (pyTrim ((dget q "session").getD ""))
          (pyTrim ((dget q "id").getD ""))
          (pyTrim (strOr2 (dget q "eml") (dget q "email"))) byId byEmail) := by
  simp only [parseFields]
  rw [if_neg hsid]
  rfl

/-! ## Pipeline-stage access lemmas

The final scrub is the identity (numeric model values are finite), and
the post-processing passes only touch their own keys; these lemmas let
claims read single `values` entries without evaluating the whole
pipeline. -/

theorem scrubNonFinite_eq (v : Values) : scrubNonFinite v = v := by
  unfold scrubNonFinite
  induction v with
  | nil => rfl
  | cons kv rest ih =>
    cases kv with
    | mk k val => cases val <;> simp [ih]

theorem normStep_fst_preserves_not_s2m {vm : Values × Meta} {k : String}
    (k'' : String) (h : SECONDS_TO_MIN.contains k = false) :
    dget (normStep vm k'').1 k = dget vm.1 k := by
  unfold normStep
  split
  · rfl
  · rename_i m hm
    split
    · rename_i hcond
      split
      · rename_i x hx
        by_cases hk : k = k''
        · subst hk
          rw [hcond.1] at h
          cases h
        · dsimp only
          rw [dget_dset_ne _ _ hk]
      · rfl
    · rfl

theorem foldl_normStep_fst_preserves (keys : List String) :
    ∀ (vm : Values × Meta) (k : String), SECONDS_TO_MIN.contains k = false →
      dget (keys.foldl normStep vm).1 k = dget vm.1 k := by
  induction keys with
  | nil => intro vm k _; rfl
  | cons k'' rest ih =>
    intro vm k h
    rw [List.foldl_cons, ih _ _ h, normStep_fst_preserves_not_s2m k'' h]

theorem normalizeRuntimeUnits_fst_preserves {vm : Values × Meta} {k : String}
    (h : SECONDS_TO_MIN.contains k = false) :
    dget (normalizeRuntimeUnits vm).1 k = dget vm.1 k :=
  foldl_normStep_fst_preserves _ vm k h

theorem synthEconomy_fst_preserves_ne {lang : String} {vm : Values × Meta}
    {k : String}
    (h1 : k ≠ "kpl_long_term_avg") (h2 : k ≠ "l_per_100_long_term_avg")
    (h3 : k ≠ "kpl_trip_avg") (h4 : k ≠ "l_per_100_trip_avg")
    (h5 : k ≠ "kpl_instant") (h6 : k ≠ "l_per_100_instant") :
    dget (synthEconomy lang vm).1 k = dget vm.1 k := by
  rw [synthEconomy_eq, synthBlock_fst_preserves_ne h5 h6,
    synthBlock_fst_preserves_ne h3 h4, synthBlock_fst_preserves_ne h1 h2]

theorem addDirectGps_fst_ne {lang : String} {vm : Values × Meta}
    {latD lonD altD accD : Option Rat} {k : String}
    (h1 : k ≠ TORQUE_GPS_LAT) (h2 : k ≠ TORQUE_GPS_LON)
    (h3 : k ≠ TORQUE_GPS_ALTITUDE) (h4 : k ≠ TORQUE_GPS_ACCURACY) :
    dget (addDirectGps lang vm latD lonD altD accD).1 k = dget vm.1 k := by
  unfold addDirectGps
  cases latD <;> cases lonD <;> cases altD <;> cases accD <;>
    simp only [dget_dset_ne _ _ h1, dget_dset_ne _ _ h2,
      dget_dset_ne _ _ h3, dget_dset_ne _ _ h4]

theorem addDirectGps_fst_lat {lang : String} {vm : Values × Meta}
    {latD lonD altD accD : Option Rat} :
    dget (addDirectGps lang vm latD lonD altD accD).1 TORQUE_GPS_LAT
      = match latD with
        | some x => some (Val.num x)
        | none => dget vm.1 TORQUE_GPS_LAT := by
  unfold addDirectGps
  cases latD <;> cases lonD <;> cases altD <;> cases accD <;>
    simp only [dget_dset_ne _ _ (show TORQUE_GPS_LAT ≠ TORQUE_GPS_LON from by decide),
      dget_dset_ne _ _ (show TORQUE_GPS_LAT ≠ TORQUE_GPS_ALTITUDE from by decide),
      dget_dset_ne _ _ (show TORQUE_GPS_LAT ≠ TORQUE_GPS_ACCURACY from by decide),
      dget_dset_self]

theorem addDirectGps_fst_lon {lang : String} {vm : Values × Meta}
    {latD lonD altD accD : Option Rat} :
    dget (addDirectGps lang vm latD lonD altD accD).1 TORQUE_GPS_LON
      = match lonD with
        | some y => some (Val.num y)
        | none => dget vm.1 TORQUE_GPS_LON := by
  unfold addDirectGps
  cases latD <;> cases lonD <;> cases altD <;> cases accD <;>
    simp only [dget_dset_ne _ _ (show TORQUE_GPS_LON ≠ TORQUE_GPS_LAT from by decide),
      dget_dset_ne _ _ (show TORQUE_GPS_LON ≠ TORQUE_GPS_ALTITUDE from by decide),
      dget_dset_ne _ _ (show TORQUE_GPS_LON ≠ TORQUE_GPS_ACCURACY from by decide),
      dget_dset_self]

/-! ## Non-finite values (claim C2) -/

/-- C2 counterexample: the sensor-code value `"nan"` does **not** resolve
to absent — `_parse_fields` passes the raw string through, and the final
scrub only nulls numeric entries, so `values["engine_load"]` is the
string `"nan"`. -/
theorem nonFinite_counterexample :
    ((parseFields [("session", "s1"), ("k04", "nan")] "en" none false 0 [] []).session.bind
        (fun s => dget s.values "engine_load")) = some (Val.str "nan") := by
  decide

/-- C2 (amended): an explicitly non-finite value resolves to absent on
the direct-GPS entry path, while on the sensor-code path the raw string
is kept as a (non-numeric) string value; in particular no numeric entry
is ever non-finite. -/
theorem nonFinite_amended (sid raw lang : String) (imp : Option Bool)
    (selfImp : Bool) (now : Int) (byId byEmail : NameMap)
    (hsid : pyTrim sid ≠ "") (hp : parseNumber raw = none) :
    ((parseFields [("session", sid), ("k04", raw)] lang imp selfImp now byId byEmail).session.map
        (fun s => dget s.values "engine_load")) = some (some (Val.str raw)) ∧
    ((parseFields [("session", sid), ("lat", raw)] lang imp selfImp now byId byEmail).session.map
        (fun s => dget s.values TORQUE_GPS_LAT)) = some none := by
  constructor
  · rw [show ((parseFields [("session", sid), ("k04", raw)] lang imp selfImp now byId byEmail).session.map
        (fun s => dget s.values "engine_load"))
      = ((parseFields [("session", sid), ("k04", raw)] lang imp selfImp now byId byEmail).session.map
          Session.values).map (fun v => dget v "engine_load") from by
        cases (parseFields [("session", sid), ("k04", raw)] lang imp selfImp now byId byEmail).session <;> rfl]
    rw [parseFields_values
      (show pyTrim ((dget [("session", sid), ("k04", raw)] "session").getD "") ≠ "" from hsid)]
    simp only [Option.map_some', Option.some.injEq]
    rw [scrubNonFinite_eq]
    rw [synthEconomy_fst_preserves_ne (by decide) (by decide) (by decide)
      (by decide) (by decide) (by decide)]
    rw [normalizeRuntimeUnits_fst_preserves (by decide)]
    rw [addDirectGps_fst_ne (by decide) (by decide) (by decide) (by decide)]
    rw [show (List.foldl (sensorStep lang) ([], [], []) [("session", sid), ("k04", raw)])
        = ([("engine_load",
              match parseNumber raw with
              | some x => Val.num x
              | none => Val.str raw)],
           [("engine_load", ⟨getLabel lang "Engine Load", "%", "Engine Load", "04"⟩)],
           ([] : List (String × String))) from rfl]
    rw [hp]
    rfl
  · rw [show ((parseFields [("session", sid), ("lat", raw)] lang imp selfImp now byId byEmail).session.map
        (fun s => dget s.values TORQUE_GPS_LAT))
      = ((parseFields [("session", sid), ("lat", raw)] lang imp selfImp now byId byEmail).session.map
          Session.values).map (fun v => dget v TORQUE_GPS_LAT) from by
        cases (parseFields [("session", sid), ("lat", raw)] lang imp selfImp now byId byEmail).session <;> rfl]
    rw [parseFields_values
      (show pyTrim ((dget [("session", sid), ("lat", raw)] "session").getD "") ≠ "" from hsid)]
    simp only [Option.map_some', Option.some.injEq]
    rw [scrubNonFinite_eq]
    rw [synthEconomy_fst_preserves_ne (by decide) (by decide) (by decide)
      (by decide) (by decide) (by decide)]
    rw [normalizeRuntimeUnits_fst_preserves (by decide)]
    rw [addDirectGps_fst_lat]
    rw [show parseNumberO (dget [("session", sid), ("lat", raw)] "lat")
        = parseNumber raw from rfl, hp]
    rw [show (List.foldl (sensorStep lang) ([], [], []) [("session", sid), ("lat", raw)])
        = (([], [], []) : Values × Meta × List (String × String)) from rfl]
    rfl

theorem nonFinite_amended_witness :
    ((parseFields [("session", "s1"), ("k04", "nan")] "fr" none false 0 [] []).session.map
        (fun s => dget s.values "engine_load")) = some (some (Val.str "nan")) ∧
    ((parseFields [("session", "s1"), ("lat", "nan")] "fr" none false 0 [] []).session.map
        (fun s => dget s.values TORQUE_GPS_LAT)) = some none :=
  nonFinite_amended "s1" "nan" "fr" none false 0 [] [] (by decide) (by decide)

/-! ## Direct positional fields (claim C3) -/

/-- C3 counterexample: with both the code-table latitude (`kff1006=45`)
and the direct field (`lat=50`) present, the direct field **overwrites**
the already-present `values` entry (only `meta` uses `setdefault`),
refuting "populates ... only if that shortName is not already present". -/
theorem directGps_counterexample :
    ((parseFields [("session", "s1"), ("kff1006", "45"), ("lat", "50")] "en" none false 0 [] []).session.bind
        (fun s => dget s.values TORQUE_GPS_LAT)) = some (Val.num 50) ∧
      Val.num 50 ≠ Val.num 45 := by
  constructor
  · decide
  · decide

/-- C3 (amended): latitude is validated to [-90, 90] and longitude to
[-180, 180], with out-of-range values becoming absent rather than
clamped; a direct positional field that parsed (and passed validation)
sets its fixed well-known shortName in `values`, overwriting any
code-table value (only the `meta` entry is added just-if-absent). -/
theorem directGps_amended (sid r1 rlat rlon lang : String) (imp : Option Bool)
    (selfImp : Bool) (now : Int) (byId byEmail : NameMap)
    (hsid : pyTrim sid ≠ "") (x y : Rat)
    (hplat : parseNumber rlat = some x) (hplon : parseNumber rlon = some y) :
    ((parseFields [("session", sid), ("lat", rlat), ("lon", rlon)] lang imp selfImp now byId byEmail).session.map
        (fun s => dget s.values TORQUE_GPS_LAT))
      = some (if -90 ≤ x ∧ x ≤ 90 then some (Val.num x) else none) ∧
    ((parseFields [("session", sid), ("lat", rlat), ("lon", rlon)] lang imp selfImp now byId byEmail).session.map
        (fun s => dget s.values TORQUE_GPS_LON))
      = some (if -180 ≤ y ∧ y ≤ 180 then some (Val.num y) else none) ∧
    (-90 ≤ x ∧ x ≤ 90 →
      ((parseFields [("session", sid), ("kff1006", r1), ("lat", rlat)] lang imp selfImp now byId byEmail).session.map
        (fun s => dget s.values TORQUE_GPS_LAT)) = some (some (Val.num x))) := by
  have hsid' : pyTrim ((dget [("session", sid), ("lat", rlat), ("lon", rlon)] "session").getD "") ≠ "" := hsid
  have hsid'' : pyTrim ((dget [("session", sid), ("kff1006", r1), ("lat", rlat)] "session").getD "") ≠ "" := hsid
  refine ⟨?_, ?_, ?_⟩
  · rw [show ((parseFields [("session", sid), ("lat", rlat), ("lon", rlon)] lang imp selfImp now byId byEmail).session.map
        (fun s => dget s.values TORQUE_GPS_LAT))
      = ((parseFields [("session", sid), ("lat", rlat), ("lon", rlon)] lang imp selfImp now byId byEmail).session.map
          Session.values).map (fun v => dget v TORQUE_GPS_LAT) from by
        cases (parseFields [("session", sid), ("lat", rlat), ("lon", rlon)] lang imp selfImp now byId byEmail).session <;> rfl]
    rw [parseFields_values hsid']
    simp only [Option.map_some', Option.some.injEq]
    rw [scrubNonFinite_eq]
    rw [synthEconomy_fst_preserves_ne (by decide) (by decide) (by decide)
      (by decide) (by decide) (by decide)]
    rw [normalizeRuntimeUnits_fst_preserves (by decide)]
    rw [addDirectGps_fst_lat]
    rw [show parseNumberO (dget [("session", sid), ("lat", rlat), ("lon", rlon)] "lat")
        = parseNumber rlat from rfl, hplat]
    rw [show parseNumberO (dget [("session", sid), ("lat", rlat), ("lon", rlon)] "lon")
        = parseNumber rlon from rfl, hplon]
    rw [show validLatLon (some x) (some y)
        = (if -90 ≤ x ∧ x ≤ 90 then some x else none,
           if -180 ≤ y ∧ y ≤ 180 then some y else none) from rfl]
    by_cases hr : -90 ≤ x ∧ x ≤ 90
    · simp only [if_pos hr]
    · simp only [if_neg hr]
      rw [show (List.foldl (sensorStep lang) ([], [], []) [("session", sid), ("lat", rlat), ("lon", rlon)])
          = (([], [], []) : Values × Meta × List (String × String)) from rfl]
      rfl
  · rw [show ((parseFields [("session", sid), ("lat", rlat), ("lon", rlon)] lang imp selfImp now byId byEmail).session.map
        (fun s => dget s.values TORQUE_GPS_LON))
      = ((parseFields [("session", sid), ("lat", rlat), ("lon", rlon)] lang imp selfImp now byId byEmail).session.map
          Session.values).map (fun v => dget v TORQUE_GPS_LON) from by
        cases (parseFields [("session", sid), ("lat", rlat), ("lon", rlon)] lang imp selfImp now byId byEmail).session <;> rfl]
    rw [parseFields_values hsid']
    simp only [Option.map_some', Option.some.injEq]
    rw [scrubNonFinite_eq]
    rw [synthEconomy_fst_preserves_ne (by decide) (by decide) (by decide)
      (by decide) (by decide) (by decide)]
    rw [normalizeRuntimeUnits_fst_preserves (by decide)]
    rw [addDirectGps_fst_lon]
    rw [show parseNumberO (dget [("session", sid), ("lat", rlat), ("lon", rlon)] "lat")
        = parseNumber rlat from rfl, hplat]
    rw [show parseNumberO (dget [("session", sid), ("lat", rlat), ("lon", rlon)] "lon")
        = parseNumber rlon from rfl, hplon]
    rw [show validLatLon (some x) (some y)
        = (if -90 ≤ x ∧ x ≤ 90 then some x else none,
           if -180 ≤ y ∧ y ≤ 180 then some y else none) from rfl]
    by_cases hr : -180 ≤ y ∧ y ≤ 180
    · simp only [if_pos hr]
    · simp only [if_neg hr]
      rw [show (List.foldl (sensorStep lang) ([], [], []) [("session", sid), ("lat", rlat), ("lon", rlon)])
          = (([], [], []) : Values × Meta × List (String × String)) from rfl]
      rfl
  · intro hr
    rw [show ((parseFields [("session", sid), ("kff1006", r1), ("lat", rlat)] lang imp selfImp now byId byEmail).session.map
        (fun s => dget s.values TORQUE_GPS_LAT))
      = ((parseFields [("session", sid), ("kff1006", r1), ("lat", rlat)] lang imp selfImp now byId byEmail).session.map
          Session.values).map (fun v => dget v TORQUE_GPS_LAT) from by
        cases (parseFields [("session", sid), ("kff1006", r1), ("lat", rlat)] lang imp selfImp now byId byEmail).session <;> rfl]
    rw [parseFields_values hsid'']
    simp only [Option.map_some', Option.some.injEq]
    rw [scrubNonFinite_eq]
    rw [synthEconomy_fst_preserves_ne (by decide) (by decide) (by decide)
      (by decide) (by decide) (by decide)]
    rw [normalizeRuntimeUnits_fst_preserves (by decide)]
    rw [addDirectGps_fst_lat]
    rw [show parseNumberO (dget [("session", sid), ("kff1006", r1), ("lat", rlat)] "lat")
        = parseNumber rlat from rfl, hplat]
    rw [show parseNumberO (dget [("session", sid), ("kff1006", r1), ("lat", rlat)] "lon")
        = none from rfl]
    rw [show validLatLon (some x) none
        = (if -90 ≤ x ∧ x ≤ 90 then some x else none, none) from rfl]
    simp only [if_pos hr]

theorem directGps_amended_witness :
    ((parseFields [("session", "s1"), ("lat", "95"), ("lon", "100")] "fr" none false 0 [] []).session.map
        (fun s => dget s.values TORQUE_GPS_LAT)) = some none ∧
    ((parseFields [("session", "s1"), ("lat", "95"), ("lon", "100")] "fr" none false 0 [] []).session.map
        (fun s => dget s.values TORQUE_GPS_LON)) = some (some (Val.num 100)) ∧
    ((parseFields [("session", "s1"), ("kff1006", "45"), ("lat", "50")] "fr" none false 0 [] []).session.map
        (fun s => dget s.values TORQUE_GPS_LAT)) = some (some (Val.num 50)) := by
  refine ⟨?_, ?_, ?_⟩
  · rw [(directGps_amended "s1" "45" "95" "100" "fr" none false 0 [] []
      (by decide) 95 100 (by decide) (by decide)).1]
    norm_num
  · rw [(directGps_amended "s1" "45" "95" "100" "fr" none false 0 [] []
      (by decide) 95 100 (by decide) (by decide)).2.1]
    norm_num
  · exact (directGps_amended "s1" "45" "50" "100" "fr" none false 0 [] []
      (by decide) 50 100 (by decide) (by decide)).2.2 (by norm_num)

/-! ## Missing session id (claim C6) -/

/-- C6: a payload without a non-empty session-identifier field parses to
nothing (whatever else it contains), and the active endpoint answers
`IGNORED` with HTTP status 200; only the cleanup pass touches the cache
(nothing is inserted) and no consumer is notified. -/
theorem missingSessionId_ignored (st : ViewState) (q : List (String × String))
    (now : Int) (lang : String) (imp : Option Bool) (selfImp : Bool)
    (byId byEmail : NameMap)
    (hsid : pyTrim ((dget q "session").getD "") = "")
    (hactive : st.active = true) :
    parseFields q lang imp selfImp now byId byEmail = ⟨none, byId, byEmail⟩ ∧
    (handleGet st q now).response = .ignored ∧
    (handleGet st q now).response.status = 200 ∧
    (handleGet st q now).state.sessions
      = cleanupSessions now st.ttlSeconds st.maxSessions st.sessions ∧
    (handleGet st q now).dispatched = none := by
  refine ⟨parseFields_none hsid, ?_⟩
  unfold handleGet
  rw [hactive]
  rw [if_neg (by simp)]
  dsimp only
  split
  · exact ⟨rfl, rfl, rfl, rfl⟩
  · rw [parseFields_none hsid]
    exact ⟨rfl, rfl, rfl, rfl⟩

theorem missingSessionId_ignored_witness :
    parseFields [("k04", "55.5"), ("eml", "a@x")] "fr" none false 7 [] []
        = ⟨none, [], []⟩ ∧
    (handleGet (initView none "fr" false none none) [("k04", "55.5"), ("eml", "a@x")] 7).response
        = .ignored ∧
    (handleGet (initView none "fr" false none none) [("k04", "55.5"), ("eml", "a@x")] 7).response.status
        = 200 ∧
    (handleGet (initView none "fr" false none none) [("k04", "55.5"), ("eml", "a@x")] 7).state.sessions
        = cleanupSessions 7 (initView none "fr" false none none).ttlSeconds
            (initView none "fr" false none none).maxSessions
            (initView none "fr" false none none).sessions ∧
    (handleGet (initView none "fr" false none none) [("k04", "55.5"), ("eml", "a@x")] 7).dispatched
        = none :=
  missingSessionId_ignored (initView none "fr" false none none)
    [("k04", "55.5"), ("eml", "a@x")] 7 "fr" none false [] [] (by decide) (by decide)

/-! ## Language override (claim C10) -/

/-- A key absent from the two-entry runtime language map. -/
theorem dget_langMap_none {k : String} (h1 : k ≠ "fr") (h2 : k ≠ "en") :
    dget RUNTIME_LANG_MAP k = none := by
  simp [RUNTIME_LANG_MAP, dget, Ne.symm h1, Ne.symm h2]

/-- C10: a non-empty `lang` override outside the supported set {en, fr}
makes the effective language the global default "fr" — whatever the
route's configured language is — and the normalized session carries that
language. -/
theorem langOverride_default (q : List (String × String)) (l : String)
    (hl : dget q "lang" = some l) (hne : l ≠ "")
    (h1 : pyLower (pyTrim l) ≠ "fr") (h2 : pyLower (pyTrim l) ≠ "en") :
    (∀ routeLang, resolveLang q routeLang = "fr") ∧
    (∀ (routeLang : String) (imp : Option Bool) (selfImp : Bool) (now : Int)
        (byId byEmail b1 b2 : NameMap) (s : Session),
      parseFields q (resolveLang q routeLang) imp selfImp now byId byEmail
          = ⟨some s, b1, b2⟩ →
      s.lang = "fr") := by
  have hres : ∀ routeLang, resolveLang q routeLang = "fr" := by
    intro routeLang
    have e1 : strOr2 (dget q "lang") (dget q "language") = l := by
      rw [hl]
      unfold strOr2 strOrO
      dsimp only
      rw [if_neg hne]
      rfl
    unfold resolveLang
    rw [e1]
    unfold strOr
    rw [if_neg hne]
    unfold pickLang
    dsimp only
    unfold strOr
    rw [if_neg hne]
    rw [dget_langMap_none h1 h2]
    rfl
  refine ⟨hres, ?_⟩
  intro routeLang imp selfImp now byId byEmail b1 b2 s hparse
  by_cases hsid : pyTrim ((dget q "session").getD "") = ""
  · rw [parseFields_none hsid] at hparse
    cases hparse
  · have := @parseFields_lang q (resolveLang q routeLang) imp selfImp now
      byId byEmail hsid
    rw [hparse] at this
    simp only [Option.map_some', Option.some.injEq] at this
    rw [this, hres]

theorem langOverride_default_witness :
    resolveLang [("session", "s1"), ("lang", "de")] "en" = "fr" :=
  (langOverride_default [("session", "s1"), ("lang", "de")] "de"
    (by decide) (by decide) (by decide) (by decide)).1 "en"

/-! ## Profile-name resolution (claim C9) -/

/-- `"Vehicle " ++ z` is never the empty string. -/
theorem vehiclePrefix_ne_empty (z : String) : "Vehicle " ++ z ≠ "" := by
  intro h
  have hd : ('V' :: 'e' :: 'h' :: 'i' :: 'c' :: 'l' :: 'e' :: ' ' :: z.data)
      = ([] : List Char) := congrArg String.data h
  exact List.noConfusion hd

/-- C9: an accepted payload's profile name equals the resolver chain's
output, which is never empty: explicit candidate fields win, else a
remembered good name for the vehicle id or email, else the synthetic
name from the truncated session id. -/
theorem profileName_resolution (q : List (String × String)) (lang : String)
    (imp : Option Bool) (selfImp : Bool) (now : Int) (byId byEmail : NameMap)
    (hsid : pyTrim ((dget q "session").getD "") ≠ "") :
    ((parseFields q lang imp selfImp now byId byEmail).session.map
        (fun s => s.profile.name))
      = some (resolveProfileName (extractProfileName q)
          (pyTrim ((dget q "session").getD ""))
          (pyTrim ((dget q "id").getD ""))
          (pyTrim (strOr2 (dget q "eml") (dget q "email"))) byId byEmail) ∧
    (∀ pn0 sid vid eml, resolveProfileName pn0 sid vid eml byId byEmail ≠ "") ∧
    (∀ pn0 sid vid eml, pn0 ≠ "" → isPoorName pn0 = false →
      resolveProfileName pn0 sid vid eml byId byEmail = pn0) ∧
    (∀ pn0 sid vid eml, (pn0 = "" ∨ isPoorName pn0 = true) →
      rememberedName vid eml byId byEmail ≠ "" →
      isPoorName (rememberedName vid eml byId byEmail) = false →
      resolveProfileName pn0 sid vid eml byId byEmail
        = rememberedName vid eml byId byEmail) ∧
    (∀ sid vid eml, (rememberedName vid eml byId byEmail = "" ∨
        isPoorName (rememberedName vid eml byId byEmail) = true) →
      resolveProfileName "" sid vid eml byId byEmail
        = "Vehicle " ++ sid.take 6) := by
  refine ⟨parseFields_name hsid, ?_, ?_, ?_, ?_⟩
  · intro pn0 sid vid eml
    unfold resolveProfileName
    dsimp only
    by_cases hc : pn0 = "" ∨ isPoorName pn0 = true
    · rw [if_pos hc]
      by_cases hrem : rememberedName vid eml byId byEmail ≠ "" ∧
          ¬ isPoorName (rememberedName vid eml byId byEmail) = true
      · rw [if_pos hrem, if_neg hrem.1]
        exact hrem.1
      · rw [if_neg hrem]
        by_cases hp : pn0 = ""
        · rw [if_pos hp]
          exact vehiclePrefix_ne_empty _
        · rw [if_neg hp]
          exact hp
    · rw [if_neg hc]
      have hp : pn0 ≠ "" := fun h => hc (Or.inl h)
      rw [if_neg hp]
      exact hp
  · intro pn0 sid vid eml hne hpoor
    unfold resolveProfileName
    dsimp only
    rw [if_neg (show ¬ (pn0 = "" ∨ isPoorName pn0 = true) from by
      simp [hne, hpoor])]
    rw [if_neg hne]
  · intro pn0 sid vid eml hpn hr hrp
    unfold resolveProfileName
    dsimp only
    rw [if_pos hpn]
    rw [if_pos (show rememberedName vid eml byId byEmail ≠ "" ∧
        ¬ isPoorName (rememberedName vid eml byId byEmail) = true from
      ⟨hr, by simp [hrp]⟩)]
    rw [if_neg hr]
  · intro sid vid eml hbad
    unfold resolveProfileName
    dsimp only
    rw [if_pos (show ("" : String) = "" ∨ isPoorName "" = true from Or.inl rfl)]
    rw [if_neg (show ¬ (rememberedName vid eml byId byEmail ≠ "" ∧
        ¬ isPoorName (rememberedName vid eml byId byEmail) = true) from by
      rcases hbad with h | h <;> simp [h])]
    rw [if_pos (show ("" : String) = "" from rfl)]

theorem profileName_resolution_witness :
    ((parseFields [("session", "s1father")] "fr" none false 0 [] []).session.map
        (fun s => s.profile.name))
      = some (resolveProfileName (extractProfileName [("session", "s1father")])
          (pyTrim ((dget [("session", "s1father")] "session").getD ""))
          (pyTrim ((dget [("session", "s1father")] "id").getD ""))
          (pyTrim (strOr2 (dget [("session", "s1father")] "eml")
            (dget [("session", "s1father")] "email"))) [] []) ∧
    resolveProfileName "" "s1father" "" "" [] [] = "Vehicle " ++ "s1father".take 6 :=
  ⟨(profileName_resolution [("session", "s1father")] "fr" none false 0 [] []
      (by decide)).1,
   (profileName_resolution [("session", "s1father")] "fr" none false 0 [] []
      (by decide)).2.2.2.2 "s1father" "" "" (Or.inl (by decide))⟩

/-! ## Endpoint activity (claim C4) -/

/-- One route-table operation (an `upsert_route` or `remove_route` call). -/
inductive RouteOp where
  | upsert (entryId : String) (email : Option String) (coordinator : Option Nat)
      (imperial : Bool) (lang : String)
  | remove (entryId : String)

def applyRouteOp (st : ViewState) : RouteOp → ViewState
  | .upsert e em c i l => upsertRoute st e em c i l
  | .remove e => removeRoute st e

def applyRouteOps (st : ViewState) (ops : List RouteOp) : ViewState :=
  ops.foldl applyRouteOp st

/-- Route operations preserve "inactive implies no routes". -/
theorem routeOp_preserves_inactive_empty (op : RouteOp) (st : ViewState)
    (h : st.active = false → st.entryRoutes = []) :
    (applyRouteOp st op).active = false → (applyRouteOp st op).entryRoutes = [] := by
  cases op with
  | upsert e em c i l =>
    intro ha
    have : (applyRouteOp st (RouteOp.upsert e em c i l)).active = true := rfl
    rw [this] at ha
    cases ha
  | remove e =>
    intro ha
    have hact : (applyRouteOp st (RouteOp.remove e)).active
        = if derase st.entryRoutes e = [] then false else st.active := rfl
    have hrt : (applyRouteOp st (RouteOp.remove e)).entryRoutes
        = derase st.entryRoutes e := rfl
    rw [hact] at ha
    rw [hrt]
    by_cases hr : derase st.entryRoutes e = []
    · exact hr
    · rw [if_neg hr] at ha
      rw [h ha] at hr
      exact absurd rfl hr

theorem applyRouteOps_inactive_empty (ops : List RouteOp) :
    ∀ st : ViewState, (st.active = false → st.entryRoutes = []) →
      (applyRouteOps st ops).active = false →
      (applyRouteOps st ops).entryRoutes = [] := by
  induction ops with
  | nil => intro st h; exact h
  | cons op rest ih =>
    intro st h
    exact ih (applyRouteOp st op) (routeOp_preserves_inactive_empty op st h)

/-- An inactive view answers every request with 404 and changes nothing. -/
theorem handleGet_inactive (st : ViewState) (q : List (String × String))
    (now : Int) (h : st.active = false) :
    handleGet st q now = ⟨.notFound, st, none⟩ := by
  unfold handleGet
  rw [h]
  rw [if_pos (by simp)]

/-- An active view never answers 404. -/
theorem handleGet_active_not_notFound (st : ViewState)
    (q : List (String × String)) (now : Int) (h : st.active = true) :
    (handleGet st q now).response ≠ .notFound := by
  unfold handleGet
  rw [h]
  rw [if_neg (by simp)]
  dsimp only
  split
  · intro hx
    cases hx
  · split
    · intro hx
      cases hx
    · intro hx
      cases hx

/-- `_pick_route` resolves nothing on a state with no routes, no email
mapping and no legacy configuration. -/
theorem pickRoute_empty (st : ViewState) (email : String)
    (h1 : st.entryRoutes = []) (h2 : st.emailToEntry = [])
    (h3 : st.coordinator = none) (h4 : st.email = "") :
    pickRoute st email = none := by
  unfold pickRoute
  dsimp only
  rw [h1, h2, h3, h4]
  simp [dget]

/-- C4 counterexample: a freshly constructed endpoint has zero routes but
is active, and a GET is answered `IGNORED` (HTTP 200) — not 404 as the
claim requires for every zero-route state. -/
theorem endpointActive_counterexample :
    (initView none "fr" false none none).entryRoutes = [] ∧
    (handleGet (initView none "fr" false none none)
        [("session", "s"), ("k04", "7")] 0).response ≠ .notFound ∧
    (handleGet (initView none "fr" false none none)
        [("session", "s"), ("k04", "7")] 0).response.status = 200 := by
  decide

/-- C4 (amended): in every state reachable from a freshly constructed
multi-entry endpoint by route operations, a non-empty route table implies
the endpoint is active; whenever it is inactive the table is empty and
every request is answered 404 with no processing; an active endpoint
never answers 404; and the fresh endpoint itself — zero routes but
active — answers "ignored", not 404. -/
theorem endpointActive_amended (dl : String) (iu : Bool) (t : Option Int)
    (m : Option Nat) (ops : List RouteOp) (q : List (String × String))
    (now : Int) :
    ((applyRouteOps (initView none dl iu t m) ops).entryRoutes ≠ [] →
      (applyRouteOps (initView none dl iu t m) ops).active = true) ∧
    ((applyRouteOps (initView none dl iu t m) ops).active = false →
      (applyRouteOps (initView none dl iu t m) ops).entryRoutes = [] ∧
      handleGet (applyRouteOps (initView none dl iu t m) ops) q now
        = ⟨.notFound, applyRouteOps (initView none dl iu t m) ops, none⟩) ∧
    ((applyRouteOps (initView none dl iu t m) ops).active = true →
      (handleGet (applyRouteOps (initView none dl iu t m) ops) q now).response
        ≠ .notFound) ∧
    (initView none dl iu t m).entryRoutes = [] ∧
    (handleGet (initView none dl iu t m) q now).response = .ignored := by
  have hinv := applyRouteOps_inactive_empty ops (initView none dl iu t m)
    (fun h => by cases h)
  refine ⟨?_, ?_, ?_, rfl, ?_⟩
  · intro hne
    cases hA : (applyRouteOps (initView none dl iu t m) ops).active with
    | false => exact absurd (hinv hA) hne
    | true => rfl
  · intro hA
    exact ⟨hinv hA, handleGet_inactive _ q now hA⟩
  · exact handleGet_active_not_notFound _ q now
  · unfold handleGet
    rw [show (initView none dl iu t m).active = true from rfl]
    rw [if_neg (by simp)]
    dsimp only
    rw [pickRoute_empty _ _ rfl rfl rfl rfl]

theorem endpointActive_amended_witness :
    (applyRouteOps (initView none "fr" false none none)
        [RouteOp.upsert "A" (some "e@x") none false "en",
         RouteOp.remove "A"]).entryRoutes = [] ∧
    handleGet (applyRouteOps (initView none "fr" false none none)
        [RouteOp.upsert "A" (some "e@x") none false "en",
         RouteOp.remove "A"]) [("session", "s")] 0
      = ⟨.notFound, applyRouteOps (initView none "fr" false none none)
          [RouteOp.upsert "A" (some "e@x") none false "en",
           RouteOp.remove "A"], none⟩ :=
  (endpointActive_amended "fr" false none none
    [RouteOp.upsert "A" (some "e@x") none false "en", RouteOp.remove "A"]
    [("session", "s")] 0).2.1 (by decide)

/-! ## Email release on route removal (claim C5) -/

/-- C5 counterexample: A registers e@x, B supersedes A as owner of e@x,
then `remove_route(A)` pops A's *recorded* email — releasing B's mapping.
`_pick_route("e@x")` now resolves to nothing although B is still
registered with that very email, refuting "releases only an email that
tenant currently owns". -/
theorem emailRelease_counterexample :
    pickRoute (removeRoute (upsertRoute (upsertRoute
        (initView none "fr" false none none)
        "A" (some "e@x") (some 1) false "en")
        "B" (some "e@x") (some 2) false "en") "A") "e@x" = none ∧
    dget (removeRoute (upsertRoute (upsertRoute
        (initView none "fr" false none none)
        "A" (some "e@x") (some 1) false "en")
        "B" (some "e@x") (some 2) false "en") "A").entryRoutes "B"
      = some ⟨some 2, "e@x", false, "en"⟩ := by
  decide

/-- C5 (amended): `remove_route(a)` pops the mapping of the removed
tenant's recorded email unconditionally — even when another tenant has
since superseded it as that email's owner — while every other email
mapping and every other tenant's route entry is left unchanged. -/
theorem removeRoute_frame (st : ViewState) (a : String) :
    (∀ tid, tid ≠ a →
      dget (removeRoute st a).entryRoutes tid = dget st.entryRoutes tid) ∧
    (∀ e, (∀ r, dget st.entryRoutes a = some r → e ≠ r.email) →
      dget (removeRoute st a).emailToEntry e = dget st.emailToEntry e) := by
  constructor
  · intro tid h
    have hrt : (removeRoute st a).entryRoutes = derase st.entryRoutes a := rfl
    rw [hrt, dget_derase_ne _ h]
  · intro e he
    have hm : (removeRoute st a).emailToEntry
        = match dget st.entryRoutes a with
          | some r => if r.email ≠ "" then derase st.emailToEntry r.email
                      else st.emailToEntry
          | none => st.emailToEntry := rfl
    cases hr : dget st.entryRoutes a with
    | none => rw [hm, hr]
    | some r =>
      rw [hm, hr]
      dsimp only
      by_cases hre : r.email ≠ ""
      · rw [if_pos hre]
        exact dget_derase_ne _ (he r hr)
      · rw [if_neg hre]

theorem removeRoute_frame_witness :
    (dget (removeRoute (upsertRoute (initView none "fr" false none none)
        "B" (some "e@x") (some 2) false "en") "A").entryRoutes "B"
      = dget (upsertRoute (initView none "fr" false none none)
          "B" (some "e@x") (some 2) false "en").entryRoutes "B") ∧
    (dget (removeRoute (upsertRoute (initView none "fr" false none none)
        "B" (some "e@x") (some 2) false "en") "A").emailToEntry "e@x"
      = dget (upsertRoute (initView none "fr" false none none)
          "B" (some "e@x") (some 2) false "en").emailToEntry "e@x") :=
  ⟨(removeRoute_frame (upsertRoute (initView none "fr" false none none)
      "B" (some "e@x") (some 2) false "en") "A").1 "B" (by decide),
   (removeRoute_frame (upsertRoute (initView none "fr" false none none)
      "B" (some "e@x") (some 2) false "en") "A").2 "e@x"
    (fun r h => by
      rw [show dget (upsertRoute (initView none "fr" false none none)
          "B" (some "e@x") (some 2) false "en").entryRoutes "A" = none from rfl] at h
      exact Option.noConfusion h)⟩

end TorquePro
